import Mathlib

/-!
Shallow embedding of the medflow healthcare-record backend
(Express + Mongoose, JavaScript) and verification of its specification.

The embedding models:
* the persisted store (`DB`) as lists of records mirroring the Mongoose
  collections (users, doctor requests, doctor/reception-agent delegations,
  appointment invitations, medical records, notifications);
* each relevant route handler as a pure function `DB → args → Response × DB`,
  translated statement by statement from the JavaScript source
  (`routes/doctor.js`, `routes/receptionAgents.js`,
  `routes/appointmentInvitations.js`, the medical-records router, and the
  risk-calculation service);
* the rule-based risk scoring engine over the health questionnaire.

Mongo `ObjectId`s are modelled as `Nat`; fresh ids produced by an insert are
passed to a handler as an explicit argument.  Dates are modelled as `Nat`
timestamps.  JavaScript truthiness tests on optional request-body fields are
modelled by `Option` presence.  A lookup of a user that the JavaScript code
dereferences without a null check is modelled faithfully: when the user is
absent the handler returns a 500 response, keeping any writes already saved.
-/

namespace Medflow

abbrev UserId := Nat

inductive Role where
  | patient
  | doctor
  | receptionAgent
  | admin
  deriving DecidableEq, Repr

structure Actor where
  userId : UserId
  role : Role
  deriving DecidableEq, Repr

inductive ReqStatus where
  | pending
  | accepted
  | rejected
  deriving DecidableEq, Repr

/-- `'pending' | 'accepted' | 'rejected'` as the JS string enum. -/
def statusString : ReqStatus → String
  | .pending => "pending"
  | .accepted => "accepted"
  | .rejected => "rejected"

structure UserRec where
  id : UserId
  role : Role
  name : String
  familyName : String
  deriving DecidableEq, Repr

/-- `models/DoctorRequest.js`: doctor→patient access request. -/
structure DoctorRequestRec where
  id : Nat
  doctor : UserId
  patient : UserId
  status : ReqStatus
  deriving DecidableEq, Repr

/-- `models/DoctorReceptionAgent.js` (shape inferred from its uses):
doctor→reception-agent delegation invitation. -/
structure DoctorReceptionAgentRec where
  id : Nat
  doctor : UserId
  receptionAgent : UserId
  status : ReqStatus
  deriving DecidableEq, Repr

/-- `models/AppointmentInvitation.js`: patient→doctor appointment invitation. -/
structure AppointmentInvitationRec where
  id : Nat
  patient : UserId
  doctor : UserId
  appointmentDate : Nat
  reason : String
  status : ReqStatus
  deriving DecidableEq, Repr

/-- Appointment sub-entry of a medical record (`appointmentSchema`). -/
structure Appointment where
  id : Nat
  doctor : UserId
  date : Nat
  reason : String
  notes : Option String
  deriving DecidableEq, Repr

/-- Prescription sub-entry (`prescriptionSchema`). -/
structure Prescription where
  id : Nat
  doctor : UserId
  medication : String
  dosage : String
  duration : Option String
  instructions : Option String
  deriving DecidableEq, Repr

/-- Disease sub-entry (`diseaseSchema`). -/
structure Disease where
  id : Nat
  doctor : UserId
  name : String
  diagnosedDate : Nat
  status : String
  notes : Option String
  deriving DecidableEq, Repr

/-- Comment sub-entry (`commentSchema`). -/
structure Comment where
  id : Nat
  doctor : UserId
  text : String
  deriving DecidableEq, Repr

/-- Diagnostic sub-entry (`diagnosticSchema`). -/
structure Diagnostic where
  id : Nat
  doctor : UserId
  testName : String
  testDate : Nat
  results : String
  notes : Option String
  deriving DecidableEq, Repr

/-- `models/MedicalRecord.js`: one record per patient (unique index). -/
structure MedicalRecordRec where
  patient : UserId
  appointments : List Appointment
  prescriptions : List Prescription
  diseases : List Disease
  comments : List Comment
  diagnostics : List Diagnostic
  deriving DecidableEq, Repr

/-- `models/Notification.js` fields used by `services/notificationService.js`. -/
structure NotificationRec where
  recipient : UserId
  sender : UserId
  type : String
  title : String
  message : String
  link : String
  deriving DecidableEq, Repr

/-- The persisted store: one list per Mongoose collection. -/
structure DB where
  users : List UserRec
  doctorRequests : List DoctorRequestRec
  doctorReceptionAgents : List DoctorReceptionAgentRec
  appointmentInvitations : List AppointmentInvitationRec
  medicalRecords : List MedicalRecordRec
  notifications : List NotificationRec
  deriving DecidableEq, Repr

/-- An HTTP response: status code plus the JSON `message` field. -/
structure Response where
  status : Nat
  message : String
  deriving DecidableEq, Repr

/-! ### Store helpers (Mongoose query/save translations) -/

/-- `User.findById(uid)`. -/
def findUser (db : DB) (uid : UserId) : Option UserRec :=
  db.users.find? (fun u => u.id == uid)

/-- `DoctorRequest.findOne({doctor, patient, status})`. -/
def findDoctorRequest (db : DB) (d p : UserId) (st : ReqStatus) : Option DoctorRequestRec :=
  db.doctorRequests.find? (fun r => r.doctor == d && r.patient == p && r.status == st)

/-- `DoctorRequest.findOne({doctor, patient})` (any status). -/
def findDoctorRequestPair (db : DB) (d p : UserId) : Option DoctorRequestRec :=
  db.doctorRequests.find? (fun r => r.doctor == d && r.patient == p)

/-- `DoctorReceptionAgent.findOne({doctor, receptionAgent, status})`. -/
def findDoctorReceptionAgent (db : DB) (d a : UserId) (st : ReqStatus) :
    Option DoctorReceptionAgentRec :=
  db.doctorReceptionAgents.find? (fun r => r.doctor == d && r.receptionAgent == a && r.status == st)

/-- `DoctorReceptionAgent.findOne({doctor, receptionAgent})` (any status). -/
def findDoctorReceptionAgentPair (db : DB) (d a : UserId) : Option DoctorReceptionAgentRec :=
  db.doctorReceptionAgents.find? (fun r => r.doctor == d && r.receptionAgent == a)

/-- `MedicalRecord.findOne({patient})`. -/
def findMedicalRecord (db : DB) (p : UserId) : Option MedicalRecordRec :=
  db.medicalRecords.find? (fun x => x.patient == p)

/-- Saving a brand-new `MedicalRecord` document (insert). -/
def insertMedicalRecord (db : DB) (mr : MedicalRecordRec) : DB :=
  { db with medicalRecords := db.medicalRecords ++ [mr] }

/-- Saving a fetched-and-mutated `MedicalRecord` document.  The `patient`
field carries the unique index, so the update is keyed on it. -/
def updateMedicalRecord (db : DB) (mr : MedicalRecordRec) : DB :=
  { db with medicalRecords :=
      db.medicalRecords.map (fun x => if x.patient = mr.patient then mr else x) }

/-- `new MedicalRecord({patient})`: Mongoose defaults every sub-array to `[]`. -/
def emptyRecord (p : UserId) : MedicalRecordRec :=
  ⟨p, [], [], [], [], []⟩

/-- Saving a fetched `DoctorRequest` whose status was reassigned. -/
def setDoctorRequestStatus (db : DB) (id0 : Nat) (st : ReqStatus) : DB :=
  { db with doctorRequests :=
      db.doctorRequests.map (fun r => if r.id = id0 then { r with status := st } else r) }

/-- Inserting a new `DoctorRequest`. -/
def insertDoctorRequest (db : DB) (r : DoctorRequestRec) : DB :=
  { db with doctorRequests := db.doctorRequests ++ [r] }

/-- Saving a fetched `DoctorReceptionAgent` whose status was reassigned. -/
def setDoctorReceptionAgentStatus (db : DB) (id0 : Nat) (st : ReqStatus) : DB :=
  { db with doctorReceptionAgents :=
      db.doctorReceptionAgents.map (fun r => if r.id = id0 then { r with status := st } else r) }

/-- Inserting a new `DoctorReceptionAgent`. -/
def insertDoctorReceptionAgent (db : DB) (r : DoctorReceptionAgentRec) : DB :=
  { db with doctorReceptionAgents := db.doctorReceptionAgents ++ [r] }

/-- Saving a fetched `AppointmentInvitation` whose status was reassigned. -/
def setAppointmentInvitationStatus (db : DB) (id0 : Nat) (st : ReqStatus) : DB :=
  { db with appointmentInvitations :=
      db.appointmentInvitations.map (fun i => if i.id = id0 then { i with status := st } else i) }

/-- `createNotification({...})` from `services/notificationService.js`:
inserts a notification document (failures are swallowed by the service). -/
def createNotification (db : DB) (n : NotificationRec) : DB :=
  { db with notifications := db.notifications ++ [n] }

/-- `notifyDoctorRequest(doctorId, patientId, doctorName)`. -/
def notifyDoctorRequest (db : DB) (doctorId patientId : UserId) (doctorName : String) : DB :=
  createNotification db
    { recipient := patientId, sender := doctorId, type := "doctor_request",
      title := "New Doctor Access Request",
      message := "Dr. " ++ doctorName ++ " has requested access to your medical records",
      link := "/dashboard/doctor-requests" }

/-- `notifyRequestAccepted(patientId, doctorId, patientName)`. -/
def notifyRequestAccepted (db : DB) (patientId doctorId : UserId) (patientName : String) : DB :=
  createNotification db
    { recipient := doctorId, sender := patientId, type := "request_accepted",
      title := "Access Request Accepted",
      message := patientName ++ " has accepted your access request",
      link := "/dashboard/doctor-patients" }

/-- `notifyRequestRejected(patientId, doctorId, patientName)`. -/
def notifyRequestRejected (db : DB) (patientId doctorId : UserId) (patientName : String) : DB :=
  createNotification db
    { recipient := doctorId, sender := patientId, type := "request_rejected",
      title := "Access Request Rejected",
      message := patientName ++ " has rejected your access request",
      link := "/dashboard/doctor-patients" }

/-- `typeLabels[type]` in `notifyMedicalRecordUpdate` (an absent key reads as
the string `undefined` once interpolated). -/
def typeLabel (t : String) : String :=
  if t = "appointment" then "appointment"
  else if t = "prescription" then "prescription"
  else if t = "disease" then "diagnosis"
  else if t = "diagnostic" then "diagnostic test"
  else if t = "comment" then "comment"
  else "undefined"

/-- `notifyMedicalRecordUpdate(doctorId, patientId, type, doctorName)`. -/
def notifyMedicalRecordUpdate (db : DB) (doctorId patientId : UserId)
    (t : String) (doctorName : String) : DB :=
  createNotification db
    { recipient := patientId, sender := doctorId, type := t ++ "_added",
      title := "Medical Record Updated",
      message := "Dr. " ++ doctorName ++ " added a new " ++ typeLabel t ++
        " to your medical record",
      link := "/dashboard/medical-record/" ++ toString patientId }

/-! ### Risk scoring engine (`services/riskCalculationService.js`) -/

/-- The health questionnaire snapshot (`models/HealthAssessment.js`).
Height (cm) and weight (kg) are rationals so that the derived BMI is exact;
the categorical fields are the JS string enums. -/
structure Assessment where
  age : Nat
  gender : String
  height : ℚ
  weight : ℚ
  hasDiabetes : Bool
  hasHighBloodPressure : Bool
  hasHeartDisease : Bool
  hadStroke : Bool
  hasHighCholesterol : Bool
  smokingStatus : String
  exerciseFrequency : String
  alcoholConsumption : String
  familyHeartDisease : Bool
  familyStroke : Bool
  familyDiabetes : Bool
  chestPain : Bool
  shortnessOfBreath : Bool
  dizziness : Bool
  fatigue : Bool
  numbness : Bool
  deriving DecidableEq, Repr

/-- One disease prediction `{risk, score, factors}`. -/
structure RiskResult where
  risk : String
  score : Nat
  factors : List String
  deriving DecidableEq, Repr

/-- `calculateBMI(weight, height)`: weight(kg) / (height(m))^2. -/
def calculateBMI (weight height : ℚ) : ℚ :=
  let heightInMeters := height / 100
  weight / (heightInMeters * heightInMeters)

/-- The score-to-risk-level thresholds, identical in all three disease
computations: `≥70 Very High, ≥50 High, ≥30 Moderate, else Low`. -/
def riskLevel (score : Nat) : String :=
  if score ≥ 70 then "Very High"
  else if score ≥ 50 then "High"
  else if score ≥ 30 then "Moderate"
  else "Low"

/-- The common tail of the three risk computations: cap the score at 100,
map it through the thresholds, and default the factor list when empty. -/
def finalizeRisk (sf : Nat × List String) (placeholder : String) : RiskResult :=
  let score := min sf.1 100
  ⟨riskLevel score, score, if sf.2 = [] then [placeholder] else sf.2⟩

/-- `calculateStrokeRisk(assessment)`. -/
def calculateStrokeRisk (a : Assessment) : RiskResult :=
  let sf : Nat × List String := (0, [])
  let sf :=
    if a.age ≥ 75 then (sf.1 + 30, sf.2 ++ ["Age 75+ significantly increases stroke risk"])
    else if a.age ≥ 65 then (sf.1 + 20, sf.2 ++ ["Age 65-74 increases stroke risk"])
    else if a.age ≥ 55 then (sf.1 + 10, sf.2 ++ ["Age 55+ moderately increases stroke risk"])
    else sf
  let sf :=
    if a.hasHighBloodPressure then
      (sf.1 + 25, sf.2 ++ ["High blood pressure is a major stroke risk factor"])
    else sf
  let sf :=
    if a.hasDiabetes then (sf.1 + 15, sf.2 ++ ["Diabetes increases stroke risk"]) else sf
  let sf :=
    if a.hadStroke then
      (sf.1 + 35, sf.2 ++ ["Previous stroke significantly increases risk of recurrence"])
    else sf
  let sf :=
    if a.hasHeartDisease then
      (sf.1 + 20, sf.2 ++ ["Heart disease increases stroke risk"])
    else sf
  let sf :=
    if a.hasHighCholesterol then
      (sf.1 + 10, sf.2 ++ ["High cholesterol contributes to stroke risk"])
    else sf
  let sf :=
    if a.smokingStatus = "Current" then
      (sf.1 + 15, sf.2 ++ ["Current smoking doubles stroke risk"])
    else if a.smokingStatus = "Former" then
      (sf.1 + 5, sf.2 ++ ["Former smoking slightly increases risk"])
    else sf
  let sf :=
    if a.exerciseFrequency = "Never" ∨ a.exerciseFrequency = "Rarely" then
      (sf.1 + 8, sf.2 ++ ["Lack of exercise increases stroke risk"])
    else sf
  let bmi := calculateBMI a.weight a.height
  let sf :=
    if bmi ≥ 30 then (sf.1 + 12, sf.2 ++ ["Obesity (BMI ≥30) increases stroke risk"])
    else if bmi ≥ 25 then
      (sf.1 + 6, sf.2 ++ ["Overweight (BMI 25-30) moderately increases risk"])
    else sf
  let sf :=
    if a.familyStroke then (sf.1 + 10, sf.2 ++ ["Family history of stroke increases risk"])
    else sf
  let sf :=
    if a.numbness || a.dizziness then
      (sf.1 + 15, sf.2 ++ ["Current symptoms require immediate medical attention"])
    else sf
  finalizeRisk sf "No major risk factors identified. Maintain healthy lifestyle."

/-- `calculateHeartDiseaseRisk(assessment)`. -/
def calculateHeartDiseaseRisk (a : Assessment) : RiskResult :=
  let sf : Nat × List String := (0, [])
  let sf :=
    if a.age ≥ 65 then
      (sf.1 + 25, sf.2 ++ ["Age 65+ significantly increases heart disease risk"])
    else if a.age ≥ 55 then (sf.1 + 15, sf.2 ++ ["Age 55+ increases heart disease risk"])
    else if a.age ≥ 45 then (sf.1 + 8, sf.2 ++ ["Age 45+ moderately increases risk"])
    else sf
  let sf :=
    if a.gender = "Male" ∧ a.age ≥ 45 then
      (sf.1 + 10, sf.2 ++ ["Men over 45 have higher heart disease risk"])
    else if a.gender = "Female" ∧ a.age ≥ 55 then
      (sf.1 + 10, sf.2 ++ ["Women over 55 have increased heart disease risk"])
    else sf
  let sf :=
    if a.hasHeartDisease then
      (sf.1 + 40, sf.2 ++ ["Existing heart disease requires ongoing management"])
    else sf
  let sf :=
    if a.hasHighBloodPressure then
      (sf.1 + 20, sf.2 ++ ["High blood pressure damages arteries over time"])
    else sf
  let sf :=
    if a.hasHighCholesterol then (sf.1 + 18, sf.2 ++ ["High cholesterol clogs arteries"])
    else sf
  let sf :=
    if a.hasDiabetes then
      (sf.1 + 20, sf.2 ++ ["Diabetes significantly increases heart disease risk"])
    else sf
  let sf :=
    if a.smokingStatus = "Current" then
      (sf.1 + 20, sf.2 ++ ["Smoking is a leading cause of heart disease"])
    else if a.smokingStatus = "Former" then
      (sf.1 + 8, sf.2 ++ ["Former smoking still poses some risk"])
    else sf
  let sf :=
    if a.exerciseFrequency = "Never" ∨ a.exerciseFrequency = "Rarely" then
      (sf.1 + 10, sf.2 ++ ["Physical inactivity weakens the heart"])
    else sf
  let sf :=
    if a.alcoholConsumption = "Heavily" then
      (sf.1 + 12, sf.2 ++ ["Heavy alcohol use damages the heart"])
    else sf
  let bmi := calculateBMI a.weight a.height
  let sf :=
    if bmi ≥ 30 then (sf.1 + 15, sf.2 ++ ["Obesity strains the cardiovascular system"])
    else if bmi ≥ 25 then
      (sf.1 + 8, sf.2 ++ ["Being overweight increases heart disease risk"])
    else sf
  let sf :=
    if a.familyHeartDisease then
      (sf.1 + 12, sf.2 ++ ["Family history of heart disease increases risk"])
    else sf
  let sf :=
    if a.chestPain then
      (sf.1 + 20, sf.2 ++ ["Chest pain requires immediate medical evaluation"])
    else sf
  let sf :=
    if a.shortnessOfBreath then
      (sf.1 + 12, sf.2 ++ ["Shortness of breath may indicate heart problems"])
    else sf
  finalizeRisk sf "No major risk factors identified. Keep up healthy habits."

/-- `calculateDiabetesRisk(assessment)`, with the `hasDiabetes` short-circuit. -/
def calculateDiabetesRisk (a : Assessment) : RiskResult :=
  if a.hasDiabetes then
    ⟨"Very High", 100, ["Already diagnosed with diabetes. Continue treatment and monitoring."]⟩
  else
    let sf : Nat × List String := (0, [])
    let sf :=
      if a.age ≥ 45 then (sf.1 + 15, sf.2 ++ ["Age 45+ increases diabetes risk"]) else sf
    let bmi := calculateBMI a.weight a.height
    let sf :=
      if bmi ≥ 35 then
        (sf.1 + 30, sf.2 ++ ["Severe obesity (BMI ≥35) greatly increases diabetes risk"])
      else if bmi ≥ 30 then
        (sf.1 + 25, sf.2 ++ ["Obesity (BMI 30-35) significantly increases diabetes risk"])
      else if bmi ≥ 25 then
        (sf.1 + 15, sf.2 ++ ["Being overweight (BMI 25-30) increases diabetes risk"])
      else sf
    let sf :=
      if a.familyDiabetes then
        (sf.1 + 20, sf.2 ++ ["Family history of diabetes increases risk significantly"])
      else sf
    let sf :=
      if a.exerciseFrequency = "Never" ∨ a.exerciseFrequency = "Rarely" then
        (sf.1 + 12, sf.2 ++ ["Physical inactivity increases diabetes risk"])
      else sf
    let sf :=
      if a.hasHighBloodPressure then
        (sf.1 + 10, sf.2 ++ ["High blood pressure often accompanies diabetes"])
      else sf
    let sf :=
      if a.hasHighCholesterol then
        (sf.1 + 8, sf.2 ++ ["High cholesterol increases diabetes risk"])
      else sf
    let sf :=
      if a.fatigue then
        (sf.1 + 10, sf.2 ++ ["Chronic fatigue may indicate blood sugar issues"])
      else sf
    finalizeRisk sf "Low risk. Maintain healthy weight and active lifestyle."

/-- `calculateAllRisks(assessment)`. -/
def calculateAllRisks (a : Assessment) :
    RiskResult × RiskResult × RiskResult :=
  (calculateStrokeRisk a, calculateHeartDiseaseRisk a, calculateDiabetesRisk a)

/-! ### Medical-record routes (`routes/medicalRecords.js`) -/

/-- Shared tail of the successful GET branches: return the record, creating an
empty one first when none exists ("Create empty record if it doesn't exist"). -/
def fetchOrCreateRecord (db : DB) (patientId : UserId) : Response × DB :=
  match findMedicalRecord db patientId with
  | some _ => (⟨200, ""⟩, db)
  | none => (⟨200, ""⟩, insertMedicalRecord db (emptyRecord patientId))

/-- `GET /:patientId`: role-dependent access gate, then fetch-or-create. -/
def getMedicalRecord (db : DB) (actor : Actor) (patientId : UserId) : Response × DB :=
  match actor.role with
  | .patient =>
      if patientId ≠ actor.userId then (⟨403, "Access denied"⟩, db)
      else fetchOrCreateRecord db patientId
  | .doctor =>
      if (findDoctorRequest db actor.userId patientId ReqStatus.accepted).isNone then
        (⟨403, "Access denied. Patient has not accepted your request."⟩, db)
      else fetchOrCreateRecord db patientId
  | .receptionAgent =>
      let doctorIds := (db.doctorReceptionAgents.filter
        (fun r => r.receptionAgent == actor.userId && r.status == ReqStatus.accepted)).map
        (fun r => r.doctor)
      if (db.doctorRequests.find? (fun r =>
            doctorIds.contains r.doctor && r.patient == patientId &&
              r.status == ReqStatus.accepted)).isNone then
        (⟨403, "Access denied. This patient is not under any of your doctors."⟩, db)
      else fetchOrCreateRecord db patientId
  | .admin => (⟨403, "Access denied"⟩, db)

/-- Shared tail of every successful mutation: look the acting doctor up for the
display name (a missing user throws after the save, surfacing as a 500 with
the write kept), then emit the `notifyMedicalRecordUpdate` notification. -/
def notifyAfterWrite (db : DB) (doctorId patientId : UserId) (kind : String)
    (code : Nat) (msg : String) : Response × DB :=
  match findUser db doctorId with
  | none => (⟨500, "Server error"⟩, db)
  | some u =>
      (⟨code, msg⟩,
        notifyMedicalRecordUpdate db doctorId patientId kind (u.name ++ " " ++ u.familyName))

/-- Shared tail of `POST /:patientId/appointment`: push onto the (possibly
fresh) record and notify. -/
def pushAppointment (db : DB) (patientId assignedDoctorId : UserId)
    (date : Nat) (reason : String) (notes : Option String) (newId : Nat) : Response × DB :=
  let entry : Appointment := ⟨newId, assignedDoctorId, date, reason, notes⟩
  let db1 :=
    match findMedicalRecord db patientId with
    | some mr => updateMedicalRecord db { mr with appointments := mr.appointments ++ [entry] }
    | none => insertMedicalRecord db { emptyRecord patientId with appointments := [entry] }
  notifyAfterWrite db1 assignedDoctorId patientId "appointment" 201
    "Appointment added successfully"

/-- `POST /:patientId/appointment`. -/
def addAppointment (db : DB) (actor : Actor) (patientId : UserId)
    (date : Nat) (reason : String) (notes : Option String)
    (doctorId : Option UserId) (newId : Nat) : Response × DB :=
  if actor.role ≠ Role.doctor ∧ actor.role ≠ Role.receptionAgent then
    (⟨403, "Only doctors and reception agents can add appointments"⟩, db)
  else if actor.role = Role.receptionAgent then
    match doctorId with
    | none => (⟨400, "Doctor ID is required for reception agents"⟩, db)
    | some did =>
        if (findDoctorReceptionAgent db did actor.userId ReqStatus.accepted).isNone then
          (⟨403, "You do not have access through this doctor"⟩, db)
        else if (findDoctorRequest db did patientId ReqStatus.accepted).isNone then
          (⟨403, "This doctor does not have access to this patient"⟩, db)
        else
          pushAppointment db patientId did date reason notes newId
  else
    if (findDoctorRequest db actor.userId patientId ReqStatus.accepted).isNone then
      (⟨403, "Access denied"⟩, db)
    else
      pushAppointment db patientId actor.userId date reason notes newId

/-- `PUT /:patientId/appointment/:appointmentId`. -/
def updateAppointment (db : DB) (actor : Actor) (patientId : UserId) (appointmentId : Nat)
    (date : Option Nat) (reason : Option String) (notes : Option String) : Response × DB :=
  if actor.role ≠ Role.doctor ∧ actor.role ≠ Role.receptionAgent then
    (⟨403, "Only doctors and reception agents can update appointments"⟩, db)
  else
    match findMedicalRecord db patientId with
    | none => (⟨404, "Medical record not found"⟩, db)
    | some mr =>
        match mr.appointments.find? (fun x => x.id == appointmentId) with
        | none => (⟨404, "Appointment not found"⟩, db)
        | some appt =>
            if actor.role = Role.doctor ∧ appt.doctor ≠ actor.userId then
              (⟨403, "You can only modify your own appointments"⟩, db)
            else if actor.role = Role.receptionAgent ∧
                (findDoctorReceptionAgent db appt.doctor actor.userId ReqStatus.accepted).isNone then
              (⟨403, "You can only modify appointments for your assigned doctors"⟩, db)
            else
              let appt2 := { appt with
                date := date.getD appt.date,
                reason := reason.getD appt.reason,
                notes := if notes.isSome then notes else appt.notes }
              let db1 := updateMedicalRecord db
                { mr with appointments :=
                    mr.appointments.map (fun x => if x.id = appointmentId then appt2 else x) }
              notifyAfterWrite db1 appt.doctor patientId "appointment" 200
                "Appointment updated successfully"

/-- `DELETE /:patientId/appointment/:appointmentId`. -/
def deleteAppointment (db : DB) (actor : Actor) (patientId : UserId)
    (appointmentId : Nat) : Response × DB :=
  if actor.role ≠ Role.doctor ∧ actor.role ≠ Role.receptionAgent then
    (⟨403, "Only doctors and reception agents can delete appointments"⟩, db)
  else
    match findMedicalRecord db patientId with
    | none => (⟨404, "Medical record not found"⟩, db)
    | some mr =>
        match mr.appointments.find? (fun x => x.id == appointmentId) with
        | none => (⟨404, "Appointment not found"⟩, db)
        | some appt =>
            if actor.role = Role.doctor ∧ appt.doctor ≠ actor.userId then
              (⟨403, "You can only delete your own appointments"⟩, db)
            else if actor.role = Role.receptionAgent ∧
                (findDoctorReceptionAgent db appt.doctor actor.userId ReqStatus.accepted).isNone then
              (⟨403, "You can only delete appointments for your assigned doctors"⟩, db)
            else
              let db1 := updateMedicalRecord db
                { mr with appointments :=
                    mr.appointments.filter (fun x => !(x.id == appointmentId)) }
              notifyAfterWrite db1 appt.doctor patientId "appointment" 200
                "Appointment deleted successfully"

/-- `POST /:patientId/prescription`. -/
def addPrescription (db : DB) (actor : Actor) (patientId : UserId)
    (medication dosage : String) (duration instructions : Option String)
    (newId : Nat) : Response × DB :=
  if actor.role ≠ Role.doctor then
    (⟨403, "Only doctors can add prescriptions"⟩, db)
  else if (findDoctorRequest db actor.userId patientId ReqStatus.accepted).isNone then
    (⟨403, "Access denied"⟩, db)
  else
    let entry : Prescription := ⟨newId, actor.userId, medication, dosage, duration, instructions⟩
    let db1 :=
      match findMedicalRecord db patientId with
      | some mr =>
          updateMedicalRecord db { mr with prescriptions := mr.prescriptions ++ [entry] }
      | none => insertMedicalRecord db { emptyRecord patientId with prescriptions := [entry] }
    notifyAfterWrite db1 actor.userId patientId "prescription" 201
      "Prescription added successfully"

/-- `PUT /:patientId/prescription/:prescriptionId`. -/
def updatePrescription (db : DB) (actor : Actor) (patientId : UserId) (prescriptionId : Nat)
    (medication dosage duration instructions : Option String) : Response × DB :=
  if actor.role ≠ Role.doctor then
    (⟨403, "Only doctors can update prescriptions"⟩, db)
  else
    match findMedicalRecord db patientId with
    | none => (⟨404, "Medical record not found"⟩, db)
    | some mr =>
        match mr.prescriptions.find? (fun x => x.id == prescriptionId) with
        | none => (⟨404, "Prescription not found"⟩, db)
        | some p =>
            if p.doctor ≠ actor.userId then
              (⟨403, "You can only modify your own prescriptions"⟩, db)
            else
              let p2 := { p with
                medication := medication.getD p.medication,
                dosage := dosage.getD p.dosage,
                duration := if duration.isSome then duration else p.duration,
                instructions := if instructions.isSome then instructions else p.instructions }
              let db1 := updateMedicalRecord db
                { mr with prescriptions :=
                    mr.prescriptions.map (fun x => if x.id = prescriptionId then p2 else x) }
              notifyAfterWrite db1 actor.userId patientId "prescription" 200
                "Prescription updated successfully"

/-- `DELETE /:patientId/prescription/:prescriptionId`. -/
def deletePrescription (db : DB) (actor : Actor) (patientId : UserId)
    (prescriptionId : Nat) : Response × DB :=
  if actor.role ≠ Role.doctor then
    (⟨403, "Only doctors can delete prescriptions"⟩, db)
  else
    match findMedicalRecord db patientId with
    | none => (⟨404, "Medical record not found"⟩, db)
    | some mr =>
        match mr.prescriptions.find? (fun x => x.id == prescriptionId) with
        | none => (⟨404, "Prescription not found"⟩, db)
        | some p =>
            if p.doctor ≠ actor.userId then
              (⟨403, "You can only delete your own prescriptions"⟩, db)
            else
              let db1 := updateMedicalRecord db
                { mr with prescriptions :=
                    mr.prescriptions.filter (fun x => !(x.id == prescriptionId)) }
              notifyAfterWrite db1 actor.userId patientId "prescription" 200
                "Prescription deleted successfully"

/-- `POST /:patientId/disease` (the schema defaults `status` to `active`). -/
def addDisease (db : DB) (actor : Actor) (patientId : UserId)
    (name : String) (diagnosedDate : Nat) (status : Option String) (notes : Option String)
    (newId : Nat) : Response × DB :=
  if actor.role ≠ Role.doctor then
    (⟨403, "Only doctors can add diseases"⟩, db)
  else if (findDoctorRequest db actor.userId patientId ReqStatus.accepted).isNone then
    (⟨403, "Access denied"⟩, db)
  else
    let entry : Disease := ⟨newId, actor.userId, name, diagnosedDate, status.getD "active", notes⟩
    let db1 :=
      match findMedicalRecord db patientId with
      | some mr => updateMedicalRecord db { mr with diseases := mr.diseases ++ [entry] }
      | none => insertMedicalRecord db { emptyRecord patientId with diseases := [entry] }
    notifyAfterWrite db1 actor.userId patientId "disease" 201 "Disease added successfully"

/-- `PUT /:patientId/disease/:diseaseId`. -/
def updateDisease (db : DB) (actor : Actor) (patientId : UserId) (diseaseId : Nat)
    (name : Option String) (diagnosedDate : Option Nat)
    (status : Option String) (notes : Option String) : Response × DB :=
  if actor.role ≠ Role.doctor then
    (⟨403, "Only doctors can update diseases"⟩, db)
  else
    match findMedicalRecord db patientId with
    | none => (⟨404, "Medical record not found"⟩, db)
    | some mr =>
        match mr.diseases.find? (fun x => x.id == diseaseId) with
        | none => (⟨404, "Disease not found"⟩, db)
        | some d =>
            if d.doctor ≠ actor.userId then
              (⟨403, "You can only modify your own disease entries"⟩, db)
            else
              let d2 := { d with
                name := name.getD d.name,
                diagnosedDate := diagnosedDate.getD d.diagnosedDate,
                status := status.getD d.status,
                notes := if notes.isSome then notes else d.notes }
              let db1 := updateMedicalRecord db
                { mr with diseases :=
                    mr.diseases.map (fun x => if x.id = diseaseId then d2 else x) }
              notifyAfterWrite db1 actor.userId patientId "disease" 200
                "Disease updated successfully"

/-- `DELETE /:patientId/disease/:diseaseId`. -/
def deleteDisease (db : DB) (actor : Actor) (patientId : UserId)
    (diseaseId : Nat) : Response × DB :=
  if actor.role ≠ Role.doctor then
    (⟨403, "Only doctors can delete diseases"⟩, db)
  else
    match findMedicalRecord db patientId with
    | none => (⟨404, "Medical record not found"⟩, db)
    | some mr =>
        match mr.diseases.find? (fun x => x.id == diseaseId) with
        | none => (⟨404, "Disease not found"⟩, db)
        | some d =>
            if d.doctor ≠ actor.userId then
              (⟨403, "You can only delete your own disease entries"⟩, db)
            else
              let db1 := updateMedicalRecord db
                { mr with diseases := mr.diseases.filter (fun x => !(x.id == diseaseId)) }
              notifyAfterWrite db1 actor.userId patientId "disease" 200
                "Disease deleted successfully"

/-- `POST /:patientId/comment`. -/
def addComment (db : DB) (actor : Actor) (patientId : UserId)
    (text : String) (newId : Nat) : Response × DB :=
  if actor.role ≠ Role.doctor then
    (⟨403, "Only doctors can add comments"⟩, db)
  else if (findDoctorRequest db actor.userId patientId ReqStatus.accepted).isNone then
    (⟨403, "Access denied"⟩, db)
  else
    let entry : Comment := ⟨newId, actor.userId, text⟩
    let db1 :=
      match findMedicalRecord db patientId with
      | some mr => updateMedicalRecord db { mr with comments := mr.comments ++ [entry] }
      | none => insertMedicalRecord db { emptyRecord patientId with comments := [entry] }
    notifyAfterWrite db1 actor.userId patientId "comment" 201 "Comment added successfully"

/-- `PUT /:patientId/comment/:commentId`. -/
def updateComment (db : DB) (actor : Actor) (patientId : UserId) (commentId : Nat)
    (text : Option String) : Response × DB :=
  if actor.role ≠ Role.doctor then
    (⟨403, "Only doctors can update comments"⟩, db)
  else
    match findMedicalRecord db patientId with
    | none => (⟨404, "Medical record not found"⟩, db)
    | some mr =>
        match mr.comments.find? (fun x => x.id == commentId) with
        | none => (⟨404, "Comment not found"⟩, db)
        | some c =>
            if c.doctor ≠ actor.userId then
              (⟨403, "You can only modify your own comments"⟩, db)
            else
              let c2 := { c with text := text.getD c.text }
              let db1 := updateMedicalRecord db
                { mr with comments :=
                    mr.comments.map (fun x => if x.id = commentId then c2 else x) }
              notifyAfterWrite db1 actor.userId patientId "comment" 200
                "Comment updated successfully"

/-- `DELETE /:patientId/comment/:commentId`. -/
def deleteComment (db : DB) (actor : Actor) (patientId : UserId)
    (commentId : Nat) : Response × DB :=
  if actor.role ≠ Role.doctor then
    (⟨403, "Only doctors can delete comments"⟩, db)
  else
    match findMedicalRecord db patientId with
    | none => (⟨404, "Medical record not found"⟩, db)
    | some mr =>
        match mr.comments.find? (fun x => x.id == commentId) with
        | none => (⟨404, "Comment not found"⟩, db)
        | some c =>
            if c.doctor ≠ actor.userId then
              (⟨403, "You can only delete your own comments"⟩, db)
            else
              let db1 := updateMedicalRecord db
                { mr with comments := mr.comments.filter (fun x => !(x.id == commentId)) }
              notifyAfterWrite db1 actor.userId patientId "comment" 200
                "Comment deleted successfully"

/-- `POST /:patientId/diagnostic`. -/
def addDiagnostic (db : DB) (actor : Actor) (patientId : UserId)
    (testName : String) (testDate : Nat) (results : String) (notes : Option String)
    (newId : Nat) : Response × DB :=
  if actor.role ≠ Role.doctor then
    (⟨403, "Only doctors can add diagnostics"⟩, db)
  else if (findDoctorRequest db actor.userId patientId ReqStatus.accepted).isNone then
    (⟨403, "Access denied"⟩, db)
  else
    let entry : Diagnostic := ⟨newId, actor.userId, testName, testDate, results, notes⟩
    let db1 :=
      match findMedicalRecord db patientId with
      | some mr => updateMedicalRecord db { mr with diagnostics := mr.diagnostics ++ [entry] }
      | none => insertMedicalRecord db { emptyRecord patientId with diagnostics := [entry] }
    notifyAfterWrite db1 actor.userId patientId "diagnostic" 201
      "Diagnostic added successfully"

/-- `PUT /:patientId/diagnostic/:diagnosticId`. -/
def updateDiagnostic (db : DB) (actor : Actor) (patientId : UserId) (diagnosticId : Nat)
    (testName : Option String) (testDate : Option Nat)
    (results : Option String) (notes : Option String) : Response × DB :=
  if actor.role ≠ Role.doctor then
    (⟨403, "Only doctors can update diagnostics"⟩, db)
  else
    match findMedicalRecord db patientId with
    | none => (⟨404, "Medical record not found"⟩, db)
    | some mr =>
        match mr.diagnostics.find? (fun x => x.id == diagnosticId) with
        | none => (⟨404, "Diagnostic not found"⟩, db)
        | some g =>
            if g.doctor ≠ actor.userId then
              (⟨403, "You can only modify your own diagnostic entries"⟩, db)
            else
              let g2 := { g with
                testName := testName.getD g.testName,
                testDate := testDate.getD g.testDate,
                results := results.getD g.results,
                notes := if notes.isSome then notes else g.notes }
              let db1 := updateMedicalRecord db
                { mr with diagnostics :=
                    mr.diagnostics.map (fun x => if x.id = diagnosticId then g2 else x) }
              notifyAfterWrite db1 actor.userId patientId "diagnostic" 200
                "Diagnostic updated successfully"

/-- `DELETE /:patientId/diagnostic/:diagnosticId`. -/
def deleteDiagnostic (db : DB) (actor : Actor) (patientId : UserId)
    (diagnosticId : Nat) : Response × DB :=
  if actor.role ≠ Role.doctor then
    (⟨403, "Only doctors can delete diagnostics"⟩, db)
  else
    match findMedicalRecord db patientId with
    | none => (⟨404, "Medical record not found"⟩, db)
    | some mr =>
        match mr.diagnostics.find? (fun x => x.id == diagnosticId) with
        | none => (⟨404, "Diagnostic not found"⟩, db)
        | some g =>
            if g.doctor ≠ actor.userId then
              (⟨403, "You can only delete your own diagnostic entries"⟩, db)
            else
              let db1 := updateMedicalRecord db
                { mr with diagnostics := mr.diagnostics.filter (fun x => !(x.id == diagnosticId)) }
              notifyAfterWrite db1 actor.userId patientId "diagnostic" 200
                "Diagnostic deleted successfully"

/-! ### Relationship routes -/

/-- `POST /request/send` in `routes/doctor.js` (doctor middleware included). -/
def sendDoctorRequest (db : DB) (actor : Actor) (patientId : Option UserId)
    (newId : Nat) : Response × DB :=
  if actor.role ≠ Role.doctor then
    (⟨403, "Access denied. Doctor role required."⟩, db)
  else
    match patientId with
    | none => (⟨400, "Patient ID is required"⟩, db)
    | some pid =>
        match db.users.find? (fun u => u.id == pid && u.role == Role.patient) with
        | none => (⟨404, "Patient not found"⟩, db)
        | some _ =>
            match findDoctorRequestPair db actor.userId pid with
            | some ex =>
                if ex.status = ReqStatus.rejected then
                  let db1 := setDoctorRequestStatus db ex.id ReqStatus.pending
                  match findUser db1 actor.userId with
                  | none => (⟨500, "Server error"⟩, db1)
                  | some u =>
                      (⟨200, "Request resent successfully"⟩,
                        notifyDoctorRequest db1 actor.userId pid (u.name ++ " " ++ u.familyName))
                else
                  (⟨400, "Request already " ++ statusString ex.status⟩, db)
            | none =>
                let db1 := insertDoctorRequest db ⟨newId, actor.userId, pid, ReqStatus.pending⟩
                match findUser db1 actor.userId with
                | none => (⟨500, "Server error"⟩, db1)
                | some u =>
                    (⟨201, "Request sent successfully"⟩,
                      notifyDoctorRequest db1 actor.userId pid (u.name ++ " " ++ u.familyName))

/-- `PUT /request/:requestId` in `routes/doctor.js`: patient accepts/rejects. -/
def respondDoctorRequest (db : DB) (actor : Actor) (requestId : Nat)
    (status : String) : Response × DB :=
  if actor.role ≠ Role.patient then
    (⟨403, "Only patients can respond to requests"⟩, db)
  else if status ≠ "accepted" ∧ status ≠ "rejected" then
    (⟨400, "Invalid status"⟩, db)
  else
    match db.doctorRequests.find? (fun r =>
        r.id == requestId && r.patient == actor.userId && r.status == ReqStatus.pending) with
    | none => (⟨404, "Request not found or already processed"⟩, db)
    | some dr =>
        let newStatus := if status = "accepted" then ReqStatus.accepted else ReqStatus.rejected
        let db1 := setDoctorRequestStatus db dr.id newStatus
        match findUser db1 actor.userId with
        | none => (⟨500, "Server error"⟩, db1)
        | some pat =>
            let patientName := pat.name ++ " " ++ pat.familyName
            if status = "accepted" then
              let db2 := notifyRequestAccepted db1 actor.userId dr.doctor patientName
              let db3 :=
                match findMedicalRecord db2 actor.userId with
                | some _ => db2
                | none => insertMedicalRecord db2 (emptyRecord actor.userId)
              (⟨200, "Request " ++ status ++ " successfully"⟩, db3)
            else
              let db2 := notifyRequestRejected db1 actor.userId dr.doctor patientName
              (⟨200, "Request " ++ status ++ " successfully"⟩, db2)

/-- `POST /invite` in `routes/receptionAgents.js` (doctor middleware included). -/
def inviteReceptionAgent (db : DB) (actor : Actor) (receptionAgentId : Option UserId)
    (newId : Nat) : Response × DB :=
  if actor.role ≠ Role.doctor then
    (⟨403, "Access denied. Doctor role required."⟩, db)
  else
    match receptionAgentId with
    | none => (⟨400, "Reception Agent ID is required"⟩, db)
    | some aid =>
        match db.users.find? (fun u => u.id == aid && u.role == Role.receptionAgent) with
        | none => (⟨404, "Reception Agent not found"⟩, db)
        | some _ =>
            match findDoctorReceptionAgentPair db actor.userId aid with
            | some ex =>
                if ex.status = ReqStatus.rejected then
                  let db1 := setDoctorReceptionAgentStatus db ex.id ReqStatus.pending
                  match findUser db1 actor.userId with
                  | none => (⟨500, "Server error"⟩, db1)
                  | some u =>
                      (⟨200, "Invitation resent successfully"⟩,
                        createNotification db1
                          { recipient := aid, sender := actor.userId, type := "doctor_request",
                            title := "New Doctor Invitation",
                            message := "Dr. " ++ u.name ++ " " ++ u.familyName ++
                              " has invited you to manage their patients appointments",
                            link := "/dashboard/doctor-invitations" })
                else
                  (⟨400, "Invitation already " ++ statusString ex.status⟩, db)
            | none =>
                let db1 := insertDoctorReceptionAgent db
                  ⟨newId, actor.userId, aid, ReqStatus.pending⟩
                match findUser db1 actor.userId with
                | none => (⟨500, "Server error"⟩, db1)
                | some u =>
                    (⟨201, "Invitation sent successfully"⟩,
                      createNotification db1
                        { recipient := aid, sender := actor.userId, type := "doctor_request",
                          title := "New Doctor Invitation",
                          message := "Dr. " ++ u.name ++ " " ++ u.familyName ++
                            " has invited you to manage their patients appointments",
                          link := "/dashboard/doctor-invitations" })

/-- `PUT /:invitationId` in `routes/appointmentInvitations.js`: a doctor
accepts or rejects a patient's appointment invitation. -/
def respondAppointmentInvitation (db : DB) (actor : Actor) (invitationId : Nat)
    (status : String) (newReqId newApptId : Nat) : Response × DB :=
  if actor.role ≠ Role.doctor then
    (⟨403, "Access denied. Doctor role required."⟩, db)
  else if status ≠ "accepted" ∧ status ≠ "rejected" then
    (⟨400, "Invalid status"⟩, db)
  else
    match db.appointmentInvitations.find? (fun i =>
        i.id == invitationId && i.doctor == actor.userId) with
    | none => (⟨404, "Invitation not found"⟩, db)
    | some inv =>
        if inv.status ≠ ReqStatus.pending then (⟨400, "Invitation already processed"⟩, db)
        else
          let newStatus := if status = "accepted" then ReqStatus.accepted else ReqStatus.rejected
          let db1 := setAppointmentInvitationStatus db inv.id newStatus
          match findUser db1 actor.userId with
          | none => (⟨500, "Server error"⟩, db1)
          | some u =>
              if status = "accepted" then
                let db2 :=
                  match findDoctorRequestPair db1 actor.userId inv.patient with
                  | none =>
                      insertDoctorRequest db1
                        ⟨newReqId, actor.userId, inv.patient, ReqStatus.accepted⟩
                  | some dr =>
                      if dr.status ≠ ReqStatus.accepted then
                        setDoctorRequestStatus db1 dr.id ReqStatus.accepted
                      else db1
                let mrdb :=
                  match findMedicalRecord db2 inv.patient with
                  | some m => (m, db2)
                  | none =>
                      (emptyRecord inv.patient,
                        insertMedicalRecord db2 (emptyRecord inv.patient))
                let mr := mrdb.1
                let db3 := mrdb.2
                let db4 := updateMedicalRecord db3
                  { mr with appointments :=
                      mr.appointments ++
                        [⟨newApptId, actor.userId, inv.appointmentDate, inv.reason, none⟩] }
                let db5 := createNotification db4
                  { recipient := inv.patient, sender := actor.userId,
                    type := "appointment_accepted",
                    title := "Appointment Invitation Accepted",
                    message := "Dr. " ++ u.name ++ " " ++ u.familyName ++
                      " has accepted your appointment invitation",
                    link := "/dashboard/medical-record" }
                (⟨200, "Invitation " ++ status⟩, db5)
              else
                let db2 := createNotification db1
                  { recipient := inv.patient, sender := actor.userId,
                    type := "appointment_rejected",
                    title := "Appointment Invitation Declined",
                    message := "Dr. " ++ u.name ++ " " ++ u.familyName ++
                      " has declined your appointment invitation",
                    link := "/dashboard/appointment-invitations" }
                (⟨200, "Invitation " ++ status⟩, db2)

/-! ### Concrete fixtures used to evaluate the embedding -/

/-- The end-to-end questionnaire of §8 of the spec: 70-year-old male,
175 cm, 90 kg, hypertensive current smoker who never exercises. -/
def assessment7 : Assessment :=
  { age := 70, gender := "Male", height := 175, weight := 90,
    hasDiabetes := false, hasHighBloodPressure := true, hasHeartDisease := false,
    hadStroke := false, hasHighCholesterol := false,
    smokingStatus := "Current", exerciseFrequency := "Never", alcoholConsumption := "Never",
    familyHeartDisease := false, familyStroke := false, familyDiabetes := false,
    chestPain := false, shortnessOfBreath := false, dizziness := false,
    fatigue := false, numbness := false }

/-- A questionnaire of an already-diagnosed diabetic (otherwise low-risk). -/
def assessmentDiabetic : Assessment :=
  { assessment7 with
    hasDiabetes := true
    age := 20
    hasHighBloodPressure := false
    smokingStatus := "Never"
    exerciseFrequency := "Daily" }

/-- A small store: doctor 1 has accepted access to patients 2 and 5; doctor 4
has a pending request to patient 2; reception agent 3 is delegated by
doctor 1; patient 2 sent doctor 1 a pending appointment invitation; patient 2
has a medical record holding prescriptions authored by doctors 1 and 4. -/
def dbA : DB :=
  { users :=
      [⟨1, Role.doctor, "Alice", "Ash"⟩, ⟨2, Role.patient, "Bob", "Bent"⟩,
        ⟨3, Role.receptionAgent, "Cleo", "Carr"⟩, ⟨4, Role.doctor, "Dana", "Dorr"⟩,
        ⟨5, Role.patient, "Eli", "Eden"⟩],
    doctorRequests :=
      [⟨10, 1, 2, ReqStatus.accepted⟩, ⟨11, 1, 5, ReqStatus.accepted⟩,
        ⟨12, 4, 2, ReqStatus.pending⟩],
    doctorReceptionAgents := [⟨20, 1, 3, ReqStatus.accepted⟩],
    appointmentInvitations := [⟨30, 2, 1, 1000, "checkup", ReqStatus.pending⟩],
    medicalRecords :=
      [⟨2, [], [⟨40, 1, "Amoxicillin", "500mg", none, none⟩,
        ⟨41, 4, "Ibuprofen", "200mg", none, none⟩], [], [], []⟩],
    notifications := [] }

/-! ### Vocabulary for stating the claims -/

/-- No medical record is lost going from `db` to `db'`: every patient who had
a record still has one. -/
def recordsPreserved (db db' : DB) : Prop :=
  ∀ p, (∃ mr ∈ db.medicalRecords, mr.patient = p) →
    ∃ mr ∈ db'.medicalRecords, mr.patient = p

/-- The (initiator, target) pair of a doctor request. -/
def drKey (r : DoctorRequestRec) : Nat × Nat :=
  (r.doctor, r.patient)

/-- The (initiator, target) pair of a reception-agent delegation. -/
def draKey (r : DoctorReceptionAgentRec) : Nat × Nat :=
  (r.doctor, r.receptionAgent)

/-- The per-pair uniqueness invariant enforced by the store's unique index:
no two records share a key. -/
def atMostOnePerKey {α : Type} (key : α → Nat × Nat) (l : List α) : Prop :=
  l.Pairwise (fun a b => key a ≠ key b)

end Medflow

/-! ## Theorems -/

namespace Medflow

/-- The capped score never exceeds 100. -/
theorem finalizeRisk_score_le (sf : Nat × List String) (p : String) :
    (finalizeRisk sf p).score ≤ 100 :=
  Nat.min_le_right _ _

/-- The reported risk level is the thresholds applied to the reported score. -/
theorem finalizeRisk_risk (sf : Nat × List String) (p : String) :
    (finalizeRisk sf p).risk = riskLevel (finalizeRisk sf p).score :=
  rfl

/-- C5: for every assessment input with `hasDiabetes = true`, the diabetes
risk computation returns exactly score 100 and risk "Very High" with the
single already-diagnosed factor string, regardless of every other field. -/
theorem diabetes_short_circuit (a : Assessment) (h : a.hasDiabetes = true) :
    calculateDiabetesRisk a =
      ⟨"Very High", 100,
        ["Already diagnosed with diabetes. Continue treatment and monitoring."]⟩ := by
  simp [calculateDiabetesRisk, h]

theorem diabetes_short_circuit_witness :
    assessmentDiabetic.hasDiabetes = true ∧
      calculateDiabetesRisk assessmentDiabetic =
        ⟨"Very High", 100,
          ["Already diagnosed with diabetes. Continue treatment and monitoring."]⟩ :=
  ⟨rfl, diabetes_short_circuit assessmentDiabetic rfl⟩

/-- C6: every one of the three disease scores lies in [0, 100], each reported
risk level is exactly the threshold map of the reported score, and the
threshold map sends `s ≥ 70` to "Very High", `50 ≤ s < 70` to "High",
`30 ≤ s < 50` to "Moderate", and `s < 30` to "Low". -/
theorem risk_bounds_and_thresholds :
    (∀ a : Assessment,
      (0 ≤ (calculateStrokeRisk a).score ∧ (calculateStrokeRisk a).score ≤ 100) ∧
      (0 ≤ (calculateHeartDiseaseRisk a).score ∧ (calculateHeartDiseaseRisk a).score ≤ 100) ∧
      (0 ≤ (calculateDiabetesRisk a).score ∧ (calculateDiabetesRisk a).score ≤ 100) ∧
      (calculateStrokeRisk a).risk = riskLevel (calculateStrokeRisk a).score ∧
      (calculateHeartDiseaseRisk a).risk = riskLevel (calculateHeartDiseaseRisk a).score ∧
      (calculateDiabetesRisk a).risk = riskLevel (calculateDiabetesRisk a).score) ∧
    (∀ s : Nat,
      (70 ≤ s → riskLevel s = "Very High") ∧
      (50 ≤ s → s < 70 → riskLevel s = "High") ∧
      (30 ≤ s → s < 50 → riskLevel s = "Moderate") ∧
      (s < 30 → riskLevel s = "Low")) := by
  constructor
  · intro a
    refine ⟨⟨Nat.zero_le _, finalizeRisk_score_le _ _⟩,
      ⟨Nat.zero_le _, finalizeRisk_score_le _ _⟩, ⟨Nat.zero_le _, ?_⟩,
      finalizeRisk_risk _ _, finalizeRisk_risk _ _, ?_⟩
    · by_cases h : a.hasDiabetes
      · simp [calculateDiabetesRisk, h]
      · simp only [calculateDiabetesRisk, h, Bool.false_eq_true, if_false]
        exact finalizeRisk_score_le _ _
    · by_cases h : a.hasDiabetes
      · simp [calculateDiabetesRisk, h, riskLevel]
      · simp only [calculateDiabetesRisk, h, Bool.false_eq_true, if_false]
        exact finalizeRisk_risk _ _
  · intro s
    refine ⟨fun h => ?_, fun h1 h2 => ?_, fun h1 h2 => ?_, fun h => ?_⟩
    · unfold riskLevel; rw [if_pos (by omega)]
    · unfold riskLevel; rw [if_neg (by omega), if_pos (by omega)]
    · unfold riskLevel; rw [if_neg (by omega), if_neg (by omega), if_pos (by omega)]
    · unfold riskLevel; rw [if_neg (by omega), if_neg (by omega), if_neg (by omega)]

theorem risk_bounds_and_thresholds_witness :
    (calculateStrokeRisk assessment7).score ≤ 100 ∧
      riskLevel 70 = "Very High" ∧ riskLevel 69 = "High" ∧ riskLevel 50 = "High" ∧
      riskLevel 49 = "Moderate" ∧ riskLevel 30 = "Moderate" ∧ riskLevel 29 = "Low" := by
  have h := risk_bounds_and_thresholds
  exact ⟨(h.1 assessment7).1.2,
    (h.2 70).1 (by decide),
    (h.2 69).2.1 (by decide) (by decide),
    (h.2 50).2.1 (by decide) (by decide),
    (h.2 49).2.2.1 (by decide) (by decide),
    (h.2 30).2.2.1 (by decide) (by decide),
    (h.2 29).2.2.2 (by decide)⟩

/-- C7: the §8 end-to-end questionnaire (70-year-old hypertensive male
current smoker, BMI 90 / 1.75² ≈ 29.4) scores 20 + 25 + 15 + 8 + 6 = 74 for
stroke and is rated "Very High". -/
theorem stroke_concrete_case :
    calculateStrokeRisk assessment7 =
      { risk := "Very High", score := 74,
        factors := ["Age 65-74 increases stroke risk",
          "High blood pressure is a major stroke risk factor",
          "Current smoking doubles stroke risk",
          "Lack of exercise increases stroke risk",
          "Overweight (BMI 25-30) moderately increases risk"] } := by
  norm_num [calculateStrokeRisk, calculateBMI, finalizeRisk, riskLevel, assessment7]
  simp

/-! ### Transport lemmas: each store helper leaves the other collections alone -/

theorem findUser_updateMedicalRecord (db : DB) (mr : MedicalRecordRec) (uid : UserId) :
    findUser (updateMedicalRecord db mr) uid = findUser db uid :=
  rfl

theorem findUser_insertMedicalRecord (db : DB) (mr : MedicalRecordRec) (uid : UserId) :
    findUser (insertMedicalRecord db mr) uid = findUser db uid :=
  rfl

theorem findUser_setDoctorRequestStatus (db : DB) (i : Nat) (st : ReqStatus) (uid : UserId) :
    findUser (setDoctorRequestStatus db i st) uid = findUser db uid :=
  rfl

theorem findUser_insertDoctorRequest (db : DB) (r : DoctorRequestRec) (uid : UserId) :
    findUser (insertDoctorRequest db r) uid = findUser db uid :=
  rfl

theorem findUser_setAppointmentInvitationStatus (db : DB) (i : Nat) (st : ReqStatus)
    (uid : UserId) :
    findUser (setAppointmentInvitationStatus db i st) uid = findUser db uid :=
  rfl

theorem findUser_createNotification (db : DB) (n : NotificationRec) (uid : UserId) :
    findUser (createNotification db n) uid = findUser db uid :=
  rfl

theorem medicalRecords_notifyAfterWrite (db : DB) (d p : UserId) (k : String)
    (c : Nat) (m : String) :
    (notifyAfterWrite db d p k c m).2.medicalRecords = db.medicalRecords := by
  unfold notifyAfterWrite
  cases hf : findUser db d <;>
    simp [hf, notifyMedicalRecordUpdate, createNotification]

theorem notifyAfterWrite_response (db : DB) (d p : UserId) (k : String) (c : Nat)
    (m : String) (u : UserRec) (hu : findUser db d = some u) :
    (notifyAfterWrite db d p k c m).1 = ⟨c, m⟩ := by
  unfold notifyAfterWrite
  rw [hu]

theorem findMedicalRecord_setDoctorRequestStatus (db : DB) (i : Nat) (st : ReqStatus)
    (p : UserId) :
    findMedicalRecord (setDoctorRequestStatus db i st) p = findMedicalRecord db p :=
  rfl

theorem findMedicalRecord_createNotification (db : DB) (n : NotificationRec) (p : UserId) :
    findMedicalRecord (createNotification db n) p = findMedicalRecord db p :=
  rfl

theorem medicalRecords_setDoctorRequestStatus (db : DB) (i : Nat) (st : ReqStatus) :
    (setDoctorRequestStatus db i st).medicalRecords = db.medicalRecords :=
  rfl

theorem medicalRecords_createNotification (db : DB) (n : NotificationRec) :
    (createNotification db n).medicalRecords = db.medicalRecords :=
  rfl

theorem doctorRequests_createNotification (db : DB) (n : NotificationRec) :
    (createNotification db n).doctorRequests = db.doctorRequests :=
  rfl

theorem doctorRequests_insertMedicalRecord (db : DB) (mr : MedicalRecordRec) :
    (insertMedicalRecord db mr).doctorRequests = db.doctorRequests :=
  rfl

theorem doctorRequests_setDoctorRequestStatus (db : DB) (i : Nat) (st : ReqStatus) :
    (setDoctorRequestStatus db i st).doctorRequests
      = db.doctorRequests.map (fun r => if r.id = i then { r with status := st } else r) :=
  rfl

/-! ### Gate and authorship lemmas for the medical-record mutations -/

theorem updatePrescription_nonauthor (db : DB) (actor : Actor) (patientId : UserId)
    (prescriptionId : Nat) (medication dosage duration instructions : Option String)
    (mr : MedicalRecordRec) (p : Prescription)
    (hrole : actor.role = Role.doctor)
    (hmr : findMedicalRecord db patientId = some mr)
    (hp : mr.prescriptions.find? (fun x => x.id == prescriptionId) = some p)
    (hne : p.doctor ≠ actor.userId) :
    updatePrescription db actor patientId prescriptionId medication dosage duration instructions
      = (⟨403, "You can only modify your own prescriptions"⟩, db) := by
  simp [updatePrescription, hrole, hmr, hp, hne]

theorem deletePrescription_nonauthor (db : DB) (actor : Actor) (patientId : UserId)
    (prescriptionId : Nat) (mr : MedicalRecordRec) (p : Prescription)
    (hrole : actor.role = Role.doctor)
    (hmr : findMedicalRecord db patientId = some mr)
    (hp : mr.prescriptions.find? (fun x => x.id == prescriptionId) = some p)
    (hne : p.doctor ≠ actor.userId) :
    deletePrescription db actor patientId prescriptionId
      = (⟨403, "You can only delete your own prescriptions"⟩, db) := by
  simp [deletePrescription, hrole, hmr, hp, hne]

theorem updatePrescription_author (db : DB) (actor : Actor) (patientId : UserId)
    (prescriptionId : Nat) (medication dosage duration instructions : Option String)
    (mr : MedicalRecordRec) (p : Prescription) (u : UserRec)
    (hrole : actor.role = Role.doctor)
    (hmr : findMedicalRecord db patientId = some mr)
    (hp : mr.prescriptions.find? (fun x => x.id == prescriptionId) = some p)
    (heq : p.doctor = actor.userId)
    (hu : findUser db actor.userId = some u) :
    (updatePrescription db actor patientId prescriptionId medication dosage duration
      instructions).1.status = 200 := by
  simp only [updatePrescription, hrole, hmr, hp, heq]
  rw [if_neg (by simp [hrole]), if_neg (by simp)]
  rw [notifyAfterWrite_response _ _ _ _ _ _ u (by rw [findUser_updateMedicalRecord, hu])]

theorem deletePrescription_author (db : DB) (actor : Actor) (patientId : UserId)
    (prescriptionId : Nat) (mr : MedicalRecordRec) (p : Prescription) (u : UserRec)
    (hrole : actor.role = Role.doctor)
    (hmr : findMedicalRecord db patientId = some mr)
    (hp : mr.prescriptions.find? (fun x => x.id == prescriptionId) = some p)
    (heq : p.doctor = actor.userId)
    (hu : findUser db actor.userId = some u) :
    (deletePrescription db actor patientId prescriptionId).1.status = 200 := by
  simp only [deletePrescription, hrole, hmr, hp, heq]
  rw [if_neg (by simp [hrole]), if_neg (by simp)]
  rw [notifyAfterWrite_response _ _ _ _ _ _ u (by rw [findUser_updateMedicalRecord, hu])]

theorem addPrescription_gate (db : DB) (actor : Actor) (patientId : UserId)
    (medication dosage : String) (duration instructions : Option String) (newId : Nat)
    (hrole : actor.role = Role.doctor)
    (hnone : findDoctorRequest db actor.userId patientId ReqStatus.accepted = none) :
    addPrescription db actor patientId medication dosage duration instructions newId
      = (⟨403, "Access denied"⟩, db) := by
  simp [addPrescription, hrole, hnone]

theorem addDisease_gate (db : DB) (actor : Actor) (patientId : UserId)
    (name : String) (diagnosedDate : Nat) (status notes : Option String) (newId : Nat)
    (hrole : actor.role = Role.doctor)
    (hnone : findDoctorRequest db actor.userId patientId ReqStatus.accepted = none) :
    addDisease db actor patientId name diagnosedDate status notes newId
      = (⟨403, "Access denied"⟩, db) := by
  simp [addDisease, hrole, hnone]

theorem addComment_gate (db : DB) (actor : Actor) (patientId : UserId)
    (text : String) (newId : Nat)
    (hrole : actor.role = Role.doctor)
    (hnone : findDoctorRequest db actor.userId patientId ReqStatus.accepted = none) :
    addComment db actor patientId text newId = (⟨403, "Access denied"⟩, db) := by
  simp [addComment, hrole, hnone]

theorem addDiagnostic_gate (db : DB) (actor : Actor) (patientId : UserId)
    (testName : String) (testDate : Nat) (results : String) (notes : Option String)
    (newId : Nat)
    (hrole : actor.role = Role.doctor)
    (hnone : findDoctorRequest db actor.userId patientId ReqStatus.accepted = none) :
    addDiagnostic db actor patientId testName testDate results notes newId
      = (⟨403, "Access denied"⟩, db) := by
  simp [addDiagnostic, hrole, hnone]

theorem addAppointment_doctor_gate (db : DB) (actor : Actor) (patientId : UserId)
    (date : Nat) (reason : String) (notes : Option String) (doctorId : Option UserId)
    (newId : Nat)
    (hrole : actor.role = Role.doctor)
    (hnone : findDoctorRequest db actor.userId patientId ReqStatus.accepted = none) :
    addAppointment db actor patientId date reason notes doctorId newId
      = (⟨403, "Access denied"⟩, db) := by
  simp [addAppointment, hrole, hnone]

theorem addAppointment_agent_nodelegation (db : DB) (actor : Actor) (patientId : UserId)
    (did : UserId) (date : Nat) (reason : String) (notes : Option String) (newId : Nat)
    (hrole : actor.role = Role.receptionAgent)
    (hnone : findDoctorReceptionAgent db did actor.userId ReqStatus.accepted = none) :
    addAppointment db actor patientId date reason notes (some did) newId
      = (⟨403, "You do not have access through this doctor"⟩, db) := by
  simp [addAppointment, hrole, hnone]

theorem addAppointment_agent_nodoctoraccess (db : DB) (actor : Actor) (patientId : UserId)
    (did : UserId) (w : DoctorReceptionAgentRec) (date : Nat) (reason : String)
    (notes : Option String) (newId : Nat)
    (hrole : actor.role = Role.receptionAgent)
    (hdel : findDoctorReceptionAgent db did actor.userId ReqStatus.accepted = some w)
    (hnone : findDoctorRequest db did patientId ReqStatus.accepted = none) :
    addAppointment db actor patientId date reason notes (some did) newId
      = (⟨403, "This doctor does not have access to this patient"⟩, db) := by
  simp [addAppointment, hrole, hdel, hnone]

theorem updateAppointment_nonauthor (db : DB) (actor : Actor) (patientId : UserId)
    (appointmentId : Nat) (date : Option Nat) (reason notes : Option String)
    (mr : MedicalRecordRec) (appt : Appointment)
    (hrole : actor.role = Role.doctor)
    (hmr : findMedicalRecord db patientId = some mr)
    (ha : mr.appointments.find? (fun x => x.id == appointmentId) = some appt)
    (hne : appt.doctor ≠ actor.userId) :
    updateAppointment db actor patientId appointmentId date reason notes
      = (⟨403, "You can only modify your own appointments"⟩, db) := by
  simp [updateAppointment, hrole, hmr, ha, hne]

theorem deleteAppointment_nonauthor (db : DB) (actor : Actor) (patientId : UserId)
    (appointmentId : Nat) (mr : MedicalRecordRec) (appt : Appointment)
    (hrole : actor.role = Role.doctor)
    (hmr : findMedicalRecord db patientId = some mr)
    (ha : mr.appointments.find? (fun x => x.id == appointmentId) = some appt)
    (hne : appt.doctor ≠ actor.userId) :
    deleteAppointment db actor patientId appointmentId
      = (⟨403, "You can only delete your own appointments"⟩, db) := by
  simp [deleteAppointment, hrole, hmr, ha, hne]

theorem updateAppointment_agent_nodelegation (db : DB) (actor : Actor) (patientId : UserId)
    (appointmentId : Nat) (date : Option Nat) (reason notes : Option String)
    (mr : MedicalRecordRec) (appt : Appointment)
    (hrole : actor.role = Role.receptionAgent)
    (hmr : findMedicalRecord db patientId = some mr)
    (ha : mr.appointments.find? (fun x => x.id == appointmentId) = some appt)
    (hnone : findDoctorReceptionAgent db appt.doctor actor.userId ReqStatus.accepted = none) :
    updateAppointment db actor patientId appointmentId date reason notes
      = (⟨403, "You can only modify appointments for your assigned doctors"⟩, db) := by
  simp [updateAppointment, hrole, hmr, ha, hnone]

theorem deleteAppointment_agent_nodelegation (db : DB) (actor : Actor) (patientId : UserId)
    (appointmentId : Nat) (mr : MedicalRecordRec) (appt : Appointment)
    (hrole : actor.role = Role.receptionAgent)
    (hmr : findMedicalRecord db patientId = some mr)
    (ha : mr.appointments.find? (fun x => x.id == appointmentId) = some appt)
    (hnone : findDoctorReceptionAgent db appt.doctor actor.userId ReqStatus.accepted = none) :
    deleteAppointment db actor patientId appointmentId
      = (⟨403, "You can only delete appointments for your assigned doctors"⟩, db) := by
  simp [deleteAppointment, hrole, hmr, ha, hnone]

theorem updateDisease_nonauthor (db : DB) (actor : Actor) (patientId : UserId)
    (diseaseId : Nat) (name : Option String) (diagnosedDate : Option Nat)
    (status notes : Option String) (mr : MedicalRecordRec) (d : Disease)
    (hrole : actor.role = Role.doctor)
    (hmr : findMedicalRecord db patientId = some mr)
    (hd : mr.diseases.find? (fun x => x.id == diseaseId) = some d)
    (hne : d.doctor ≠ actor.userId) :
    updateDisease db actor patientId diseaseId name diagnosedDate status notes
      = (⟨403, "You can only modify your own disease entries"⟩, db) := by
  simp [updateDisease, hrole, hmr, hd, hne]

theorem deleteDisease_nonauthor (db : DB) (actor : Actor) (patientId : UserId)
    (diseaseId : Nat) (mr : MedicalRecordRec) (d : Disease)
    (hrole : actor.role = Role.doctor)
    (hmr : findMedicalRecord db patientId = some mr)
    (hd : mr.diseases.find? (fun x => x.id == diseaseId) = some d)
    (hne : d.doctor ≠ actor.userId) :
    deleteDisease db actor patientId diseaseId
      = (⟨403, "You can only delete your own disease entries"⟩, db) := by
  simp [deleteDisease, hrole, hmr, hd, hne]

theorem updateComment_nonauthor (db : DB) (actor : Actor) (patientId : UserId)
    (commentId : Nat) (text : Option String) (mr : MedicalRecordRec) (c : Comment)
    (hrole : actor.role = Role.doctor)
    (hmr : findMedicalRecord db patientId = some mr)
    (hc : mr.comments.find? (fun x => x.id == commentId) = some c)
    (hne : c.doctor ≠ actor.userId) :
    updateComment db actor patientId commentId text
      = (⟨403, "You can only modify your own comments"⟩, db) := by
  simp [updateComment, hrole, hmr, hc, hne]

theorem deleteComment_nonauthor (db : DB) (actor : Actor) (patientId : UserId)
    (commentId : Nat) (mr : MedicalRecordRec) (c : Comment)
    (hrole : actor.role = Role.doctor)
    (hmr : findMedicalRecord db patientId = some mr)
    (hc : mr.comments.find? (fun x => x.id == commentId) = some c)
    (hne : c.doctor ≠ actor.userId) :
    deleteComment db actor patientId commentId
      = (⟨403, "You can only delete your own comments"⟩, db) := by
  simp [deleteComment, hrole, hmr, hc, hne]

theorem updateDiagnostic_nonauthor (db : DB) (actor : Actor) (patientId : UserId)
    (diagnosticId : Nat) (testName : Option String) (testDate : Option Nat)
    (results notes : Option String) (mr : MedicalRecordRec) (g : Diagnostic)
    (hrole : actor.role = Role.doctor)
    (hmr : findMedicalRecord db patientId = some mr)
    (hg : mr.diagnostics.find? (fun x => x.id == diagnosticId) = some g)
    (hne : g.doctor ≠ actor.userId) :
    updateDiagnostic db actor patientId diagnosticId testName testDate results notes
      = (⟨403, "You can only modify your own diagnostic entries"⟩, db) := by
  simp [updateDiagnostic, hrole, hmr, hg, hne]

theorem deleteDiagnostic_nonauthor (db : DB) (actor : Actor) (patientId : UserId)
    (diagnosticId : Nat) (mr : MedicalRecordRec) (g : Diagnostic)
    (hrole : actor.role = Role.doctor)
    (hmr : findMedicalRecord db patientId = some mr)
    (hg : mr.diagnostics.find? (fun x => x.id == diagnosticId) = some g)
    (hne : g.doctor ≠ actor.userId) :
    deleteDiagnostic db actor patientId diagnosticId
      = (⟨403, "You can only delete your own diagnostic entries"⟩, db) := by
  simp [deleteDiagnostic, hrole, hmr, hg, hne]

theorem updateDisease_author (db : DB) (actor : Actor) (patientId : UserId)
    (diseaseId : Nat) (name : Option String) (diagnosedDate : Option Nat)
    (status notes : Option String) (mr : MedicalRecordRec) (d : Disease) (u : UserRec)
    (hrole : actor.role = Role.doctor)
    (hmr : findMedicalRecord db patientId = some mr)
    (hd : mr.diseases.find? (fun x => x.id == diseaseId) = some d)
    (heq : d.doctor = actor.userId)
    (hu : findUser db actor.userId = some u) :
    (updateDisease db actor patientId diseaseId name diagnosedDate status notes).1.status
      = 200 := by
  simp only [updateDisease, hrole, hmr, hd, heq]
  rw [if_neg (by simp [hrole]), if_neg (by simp)]
  rw [notifyAfterWrite_response _ _ _ _ _ _ u (by rw [findUser_updateMedicalRecord, hu])]

theorem deleteDisease_author (db : DB) (actor : Actor) (patientId : UserId)
    (diseaseId : Nat) (mr : MedicalRecordRec) (d : Disease) (u : UserRec)
    (hrole : actor.role = Role.doctor)
    (hmr : findMedicalRecord db patientId = some mr)
    (hd : mr.diseases.find? (fun x => x.id == diseaseId) = some d)
    (heq : d.doctor = actor.userId)
    (hu : findUser db actor.userId = some u) :
    (deleteDisease db actor patientId diseaseId).1.status = 200 := by
  simp only [deleteDisease, hrole, hmr, hd, heq]
  rw [if_neg (by simp [hrole]), if_neg (by simp)]
  rw [notifyAfterWrite_response _ _ _ _ _ _ u (by rw [findUser_updateMedicalRecord, hu])]

theorem updateComment_author (db : DB) (actor : Actor) (patientId : UserId)
    (commentId : Nat) (text : Option String) (mr : MedicalRecordRec) (c : Comment)
    (u : UserRec)
    (hrole : actor.role = Role.doctor)
    (hmr : findMedicalRecord db patientId = some mr)
    (hc : mr.comments.find? (fun x => x.id == commentId) = some c)
    (heq : c.doctor = actor.userId)
    (hu : findUser db actor.userId = some u) :
    (updateComment db actor patientId commentId text).1.status = 200 := by
  simp only [updateComment, hrole, hmr, hc, heq]
  rw [if_neg (by simp [hrole]), if_neg (by simp)]
  rw [notifyAfterWrite_response _ _ _ _ _ _ u (by rw [findUser_updateMedicalRecord, hu])]

theorem deleteComment_author (db : DB) (actor : Actor) (patientId : UserId)
    (commentId : Nat) (mr : MedicalRecordRec) (c : Comment) (u : UserRec)
    (hrole : actor.role = Role.doctor)
    (hmr : findMedicalRecord db patientId = some mr)
    (hc : mr.comments.find? (fun x => x.id == commentId) = some c)
    (heq : c.doctor = actor.userId)
    (hu : findUser db actor.userId = some u) :
    (deleteComment db actor patientId commentId).1.status = 200 := by
  simp only [deleteComment, hrole, hmr, hc, heq]
  rw [if_neg (by simp [hrole]), if_neg (by simp)]
  rw [notifyAfterWrite_response _ _ _ _ _ _ u (by rw [findUser_updateMedicalRecord, hu])]

theorem updateDiagnostic_author (db : DB) (actor : Actor) (patientId : UserId)
    (diagnosticId : Nat) (testName : Option String) (testDate : Option Nat)
    (results notes : Option String) (mr : MedicalRecordRec) (g : Diagnostic) (u : UserRec)
    (hrole : actor.role = Role.doctor)
    (hmr : findMedicalRecord db patientId = some mr)
    (hg : mr.diagnostics.find? (fun x => x.id == diagnosticId) = some g)
    (heq : g.doctor = actor.userId)
    (hu : findUser db actor.userId = some u) :
    (updateDiagnostic db actor patientId diagnosticId testName testDate results
      notes).1.status = 200 := by
  simp only [updateDiagnostic, hrole, hmr, hg, heq]
  rw [if_neg (by simp [hrole]), if_neg (by simp)]
  rw [notifyAfterWrite_response _ _ _ _ _ _ u (by rw [findUser_updateMedicalRecord, hu])]

theorem deleteDiagnostic_author (db : DB) (actor : Actor) (patientId : UserId)
    (diagnosticId : Nat) (mr : MedicalRecordRec) (g : Diagnostic) (u : UserRec)
    (hrole : actor.role = Role.doctor)
    (hmr : findMedicalRecord db patientId = some mr)
    (hg : mr.diagnostics.find? (fun x => x.id == diagnosticId) = some g)
    (heq : g.doctor = actor.userId)
    (hu : findUser db actor.userId = some u) :
    (deleteDiagnostic db actor patientId diagnosticId).1.status = 200 := by
  simp only [deleteDiagnostic, hrole, hmr, hg, heq]
  rw [if_neg (by simp [hrole]), if_neg (by simp)]
  rw [notifyAfterWrite_response _ _ _ _ _ _ u (by rw [findUser_updateMedicalRecord, hu])]

theorem updateAppointment_author (db : DB) (actor : Actor) (patientId : UserId)
    (appointmentId : Nat) (date : Option Nat) (reason notes : Option String)
    (mr : MedicalRecordRec) (appt : Appointment) (u : UserRec)
    (hrole : actor.role = Role.doctor)
    (hmr : findMedicalRecord db patientId = some mr)
    (ha : mr.appointments.find? (fun x => x.id == appointmentId) = some appt)
    (heq : appt.doctor = actor.userId)
    (hu : findUser db actor.userId = some u) :
    (updateAppointment db actor patientId appointmentId date reason notes).1.status = 200 := by
  simp only [updateAppointment, hrole, hmr, ha, heq]
  rw [if_neg (by simp [hrole]), if_neg (by simp), if_neg (by simp [hrole])]
  rw [notifyAfterWrite_response _ _ _ _ _ _ u (by rw [findUser_updateMedicalRecord, hu])]

theorem deleteAppointment_author (db : DB) (actor : Actor) (patientId : UserId)
    (appointmentId : Nat) (mr : MedicalRecordRec) (appt : Appointment) (u : UserRec)
    (hrole : actor.role = Role.doctor)
    (hmr : findMedicalRecord db patientId = some mr)
    (ha : mr.appointments.find? (fun x => x.id == appointmentId) = some appt)
    (heq : appt.doctor = actor.userId)
    (hu : findUser db actor.userId = some u) :
    (deleteAppointment db actor patientId appointmentId).1.status = 200 := by
  simp only [deleteAppointment, hrole, hmr, ha, heq]
  rw [if_neg (by simp [hrole]), if_neg (by simp), if_neg (by simp [hrole])]
  rw [notifyAfterWrite_response _ _ _ _ _ _ u (by rw [findUser_updateMedicalRecord, hu])]

theorem updateAppointment_agent_delegated (db : DB) (actor : Actor) (patientId : UserId)
    (appointmentId : Nat) (date : Option Nat) (reason notes : Option String)
    (mr : MedicalRecordRec) (appt : Appointment) (w : DoctorReceptionAgentRec) (u : UserRec)
    (hrole : actor.role = Role.receptionAgent)
    (hmr : findMedicalRecord db patientId = some mr)
    (ha : mr.appointments.find? (fun x => x.id == appointmentId) = some appt)
    (hdel : findDoctorReceptionAgent db appt.doctor actor.userId ReqStatus.accepted = some w)
    (hu : findUser db appt.doctor = some u) :
    (updateAppointment db actor patientId appointmentId date reason notes).1.status = 200 := by
  simp only [updateAppointment, hrole, hmr, ha, hdel]
  rw [if_neg (by simp [hrole]), if_neg (by simp [hrole]), if_neg (by simp [hdel])]
  rw [notifyAfterWrite_response _ _ _ _ _ _ u (by rw [findUser_updateMedicalRecord, hu])]

theorem deleteAppointment_agent_delegated (db : DB) (actor : Actor) (patientId : UserId)
    (appointmentId : Nat) (mr : MedicalRecordRec) (appt : Appointment)
    (w : DoctorReceptionAgentRec) (u : UserRec)
    (hrole : actor.role = Role.receptionAgent)
    (hmr : findMedicalRecord db patientId = some mr)
    (ha : mr.appointments.find? (fun x => x.id == appointmentId) = some appt)
    (hdel : findDoctorReceptionAgent db appt.doctor actor.userId ReqStatus.accepted = some w)
    (hu : findUser db appt.doctor = some u) :
    (deleteAppointment db actor patientId appointmentId).1.status = 200 := by
  simp only [deleteAppointment, hrole, hmr, ha, hdel]
  rw [if_neg (by simp [hrole]), if_neg (by simp [hrole]), if_neg (by simp [hdel])]
  rw [notifyAfterWrite_response _ _ _ _ _ _ u (by rw [findUser_updateMedicalRecord, hu])]

theorem pushAppointment_adds (db : DB) (patientId did : UserId) (date : Nat)
    (reason : String) (notes : Option String) (newId : Nat) :
    ∃ mr ∈ (pushAppointment db patientId did date reason notes newId).2.medicalRecords,
      mr.patient = patientId ∧
        (⟨newId, did, date, reason, notes⟩ : Appointment) ∈ mr.appointments := by
  unfold pushAppointment
  cases hf : findMedicalRecord db patientId with
  | none =>
      simp only [hf]
      rw [medicalRecords_notifyAfterWrite]
      refine ⟨{ emptyRecord patientId with
        appointments := [⟨newId, did, date, reason, notes⟩] }, ?_, rfl, by simp⟩
      simp [insertMedicalRecord]
  | some mr0 =>
      simp only [hf]
      rw [medicalRecords_notifyAfterWrite]
      have hmem := List.mem_of_find?_eq_some hf
      have hpat : mr0.patient = patientId := by
        have hq := List.find?_some hf
        simpa using hq
      refine ⟨{ mr0 with
        appointments := mr0.appointments ++ [⟨newId, did, date, reason, notes⟩] },
        ?_, hpat, by simp⟩
      simp only [updateMedicalRecord]
      exact List.mem_map.mpr ⟨mr0, hmem, by simp⟩

theorem pushAppointment_response (db : DB) (patientId did : UserId) (date : Nat)
    (reason : String) (notes : Option String) (newId : Nat) (u : UserRec)
    (hu : findUser db did = some u) :
    (pushAppointment db patientId did date reason notes newId).1
      = ⟨201, "Appointment added successfully"⟩ := by
  unfold pushAppointment
  cases hf : findMedicalRecord db patientId with
  | none =>
      simp only [hf]
      exact notifyAfterWrite_response _ _ _ _ _ _ u
        (by rw [findUser_insertMedicalRecord]; exact hu)
  | some mr0 =>
      simp only [hf]
      exact notifyAfterWrite_response _ _ _ _ _ _ u
        (by rw [findUser_updateMedicalRecord]; exact hu)

theorem addAppointment_agent_ok (db : DB) (actor : Actor) (patientId d : UserId)
    (w : DoctorReceptionAgentRec) (q : DoctorRequestRec) (date : Nat) (reason : String)
    (notes : Option String) (newId : Nat)
    (hrole : actor.role = Role.receptionAgent)
    (hdel : findDoctorReceptionAgent db d actor.userId ReqStatus.accepted = some w)
    (hacc : findDoctorRequest db d patientId ReqStatus.accepted = some q) :
    addAppointment db actor patientId date reason notes (some d) newId
      = pushAppointment db patientId d date reason notes newId := by
  simp [addAppointment, hrole, hdel, hacc]

/-- C8: a reception agent holding an accepted delegation from doctor D, where
D holds an accepted DoctorRequest for the patient, successfully adds an
appointment attributed to D; the add fails with 403 when either the
delegation or D's access to the patient is missing; and the same agent's
attempt to add a prescription is always denied with 403. -/
theorem reception_agent_appointment_access :
    (∀ (db : DB) (actor : Actor) (patientId d : UserId) (w : DoctorReceptionAgentRec)
      (q : DoctorRequestRec) (date : Nat) (reason : String) (notes : Option String)
      (newId : Nat) (u : UserRec),
      actor.role = Role.receptionAgent →
      findDoctorReceptionAgent db d actor.userId ReqStatus.accepted = some w →
      findDoctorRequest db d patientId ReqStatus.accepted = some q →
      findUser db d = some u →
      (addAppointment db actor patientId date reason notes (some d) newId).1
        = ⟨201, "Appointment added successfully"⟩ ∧
      ∃ mr ∈ (addAppointment db actor patientId date reason notes
          (some d) newId).2.medicalRecords,
        mr.patient = patientId ∧
          (⟨newId, d, date, reason, notes⟩ : Appointment) ∈ mr.appointments) ∧
    (∀ (db : DB) (actor : Actor) (patientId d : UserId) (date : Nat) (reason : String)
      (notes : Option String) (newId : Nat),
      actor.role = Role.receptionAgent →
      findDoctorReceptionAgent db d actor.userId ReqStatus.accepted = none →
      addAppointment db actor patientId date reason notes (some d) newId
        = (⟨403, "You do not have access through this doctor"⟩, db)) ∧
    (∀ (db : DB) (actor : Actor) (patientId d : UserId) (w : DoctorReceptionAgentRec)
      (date : Nat) (reason : String) (notes : Option String) (newId : Nat),
      actor.role = Role.receptionAgent →
      findDoctorReceptionAgent db d actor.userId ReqStatus.accepted = some w →
      findDoctorRequest db d patientId ReqStatus.accepted = none →
      addAppointment db actor patientId date reason notes (some d) newId
        = (⟨403, "This doctor does not have access to this patient"⟩, db)) ∧
    (∀ (db : DB) (actor : Actor) (patientId : UserId) (medication dosage : String)
      (duration instructions : Option String) (newId : Nat),
      actor.role = Role.receptionAgent →
      addPrescription db actor patientId medication dosage duration instructions newId
        = (⟨403, "Only doctors can add prescriptions"⟩, db)) := by
  refine ⟨?_, ?_, ?_, ?_⟩
  · intro db actor patientId d w q date reason notes newId u hrole hdel hacc hu
    rw [addAppointment_agent_ok db actor patientId d w q date reason notes newId
      hrole hdel hacc]
    exact ⟨pushAppointment_response db patientId d date reason notes newId u hu,
      pushAppointment_adds db patientId d date reason notes newId⟩
  · exact fun db actor pid d date r n nid h1 h2 =>
      addAppointment_agent_nodelegation db actor pid d date r n nid h1 h2
  · exact fun db actor pid d w date r n nid h1 h2 h3 =>
      addAppointment_agent_nodoctoraccess db actor pid d w date r n nid h1 h2 h3
  · intro db actor pid m ds dur ins nid hrole
    simp [addPrescription, hrole]

theorem reception_agent_appointment_access_witness :
    ((addAppointment dbA ⟨3, Role.receptionAgent⟩ 2 1500 "visit" none (some 1) 96).1
        = ⟨201, "Appointment added successfully"⟩ ∧
      ∃ mr ∈ (addAppointment dbA ⟨3, Role.receptionAgent⟩ 2 1500 "visit" none
          (some 1) 96).2.medicalRecords,
        mr.patient = 2 ∧ (⟨96, 1, 1500, "visit", none⟩ : Appointment) ∈ mr.appointments) ∧
    addAppointment dbA ⟨3, Role.receptionAgent⟩ 2 1500 "visit" none (some 4) 96
      = (⟨403, "You do not have access through this doctor"⟩, dbA) ∧
    addPrescription dbA ⟨3, Role.receptionAgent⟩ 2 "Med" "1x" none none 95
      = (⟨403, "Only doctors can add prescriptions"⟩, dbA) := by
  obtain ⟨hok, hnod, -, hpres⟩ := reception_agent_appointment_access
  exact ⟨hok dbA ⟨3, Role.receptionAgent⟩ 2 1 ⟨20, 1, 3, ReqStatus.accepted⟩
      ⟨10, 1, 2, ReqStatus.accepted⟩ 1500 "visit" none 96 ⟨1, Role.doctor, "Alice", "Ash"⟩
      rfl (by decide) (by decide) (by decide),
    hnod dbA ⟨3, Role.receptionAgent⟩ 2 4 1500 "visit" none 96 rfl (by decide),
    hpres dbA ⟨3, Role.receptionAgent⟩ 2 "Med" "1x" none none 95 rfl⟩

/-- C9: a prescription update or delete by a doctor who is not the entry's
author fails with 403 and leaves the store unchanged — no hypothesis about
`doctorRequests` appears, so this holds even when the acting doctor has an
accepted DoctorRequest for the patient — while the authoring doctor's update
and delete succeed. -/
theorem prescription_author_only (db : DB) (actor : Actor) (patientId : UserId)
    (prescriptionId : Nat) (medication dosage duration instructions : Option String)
    (mr : MedicalRecordRec) (p : Prescription)
    (hrole : actor.role = Role.doctor)
    (hmr : findMedicalRecord db patientId = some mr)
    (hp : mr.prescriptions.find? (fun x => x.id == prescriptionId) = some p) :
    (p.doctor ≠ actor.userId →
      updatePrescription db actor patientId prescriptionId medication dosage duration
        instructions = (⟨403, "You can only modify your own prescriptions"⟩, db) ∧
      deletePrescription db actor patientId prescriptionId
        = (⟨403, "You can only delete your own prescriptions"⟩, db)) ∧
    (p.doctor = actor.userId → ∀ u, findUser db actor.userId = some u →
      (updatePrescription db actor patientId prescriptionId medication dosage duration
        instructions).1.status = 200 ∧
      (deletePrescription db actor patientId prescriptionId).1.status = 200) := by
  constructor
  · intro hne
    exact ⟨updatePrescription_nonauthor db actor patientId prescriptionId medication dosage
        duration instructions mr p hrole hmr hp hne,
      deletePrescription_nonauthor db actor patientId prescriptionId mr p hrole hmr hp hne⟩
  · intro heq u hu
    exact ⟨updatePrescription_author db actor patientId prescriptionId medication dosage
        duration instructions mr p u hrole hmr hp heq hu,
      deletePrescription_author db actor patientId prescriptionId mr p u hrole hmr hp heq hu⟩

theorem prescription_author_only_witness :
    (updatePrescription dbA ⟨4, Role.doctor⟩ 2 40 (some "Aspirin") none none none
        = (⟨403, "You can only modify your own prescriptions"⟩, dbA) ∧
      deletePrescription dbA ⟨4, Role.doctor⟩ 2 40
        = (⟨403, "You can only delete your own prescriptions"⟩, dbA)) ∧
    ((updatePrescription dbA ⟨1, Role.doctor⟩ 2 40 (some "Aspirin") none none none).1.status
        = 200 ∧
      (deletePrescription dbA ⟨1, Role.doctor⟩ 2 40).1.status = 200) := by
  refine ⟨?_, ?_⟩
  · exact (prescription_author_only dbA ⟨4, Role.doctor⟩ 2 40 (some "Aspirin") none none none
      ⟨2, [], [⟨40, 1, "Amoxicillin", "500mg", none, none⟩,
        ⟨41, 4, "Ibuprofen", "200mg", none, none⟩], [], [], []⟩
      ⟨40, 1, "Amoxicillin", "500mg", none, none⟩
      rfl (by decide) (by decide)).1 (by decide)
  · exact (prescription_author_only dbA ⟨1, Role.doctor⟩ 2 40 (some "Aspirin") none none none
      ⟨2, [], [⟨40, 1, "Amoxicillin", "500mg", none, none⟩,
        ⟨41, 4, "Ibuprofen", "200mg", none, none⟩], [], [], []⟩
      ⟨40, 1, "Amoxicillin", "500mg", none, none⟩
      rfl (by decide) (by decide)).2 rfl ⟨1, Role.doctor, "Alice", "Ash"⟩ (by decide)

/-- C1 (amended): appends of medical-record sub-entries pass the access
resolver before any write — a Doctor append fails with 403 and no state
change when no accepted DoctorRequest (doctor=actor, patient) exists, and a
ReceptionAgent appointment append fails with 403 when either hop of the
transitive condition is missing — whereas update and delete operations check
only authorship: a non-author doctor (or an agent without an accepted
delegation from the entry's doctor) gets 403 with no state change, and the
author (or a delegated agent) succeeds with no DoctorRequest check at the
time of the write. -/
theorem mutation_gate_amended :
    (∀ (db : DB) (actor : Actor) (patientId : UserId) (date : Nat) (reason : String)
      (notes : Option String) (doctorId : Option UserId) (newId : Nat),
      actor.role = Role.doctor →
      findDoctorRequest db actor.userId patientId ReqStatus.accepted = none →
      addAppointment db actor patientId date reason notes doctorId newId
        = (⟨403, "Access denied"⟩, db)) ∧
    (∀ (db : DB) (actor : Actor) (patientId did : UserId) (date : Nat) (reason : String)
      (notes : Option String) (newId : Nat),
      actor.role = Role.receptionAgent →
      findDoctorReceptionAgent db did actor.userId ReqStatus.accepted = none →
      addAppointment db actor patientId date reason notes (some did) newId
        = (⟨403, "You do not have access through this doctor"⟩, db)) ∧
    (∀ (db : DB) (actor : Actor) (patientId did : UserId) (w : DoctorReceptionAgentRec)
      (date : Nat) (reason : String) (notes : Option String) (newId : Nat),
      actor.role = Role.receptionAgent →
      findDoctorReceptionAgent db did actor.userId ReqStatus.accepted = some w →
      findDoctorRequest db did patientId ReqStatus.accepted = none →
      addAppointment db actor patientId date reason notes (some did) newId
        = (⟨403, "This doctor does not have access to this patient"⟩, db)) ∧
    (∀ (db : DB) (actor : Actor) (patientId : UserId) (medication dosage : String)
      (duration instructions : Option String) (newId : Nat),
      actor.role = Role.doctor →
      findDoctorRequest db actor.userId patientId ReqStatus.accepted = none →
      addPrescription db actor patientId medication dosage duration instructions newId
        = (⟨403, "Access denied"⟩, db)) ∧
    (∀ (db : DB) (actor : Actor) (patientId : UserId) (name : String) (diagnosedDate : Nat)
      (status notes : Option String) (newId : Nat),
      actor.role = Role.doctor →
      findDoctorRequest db actor.userId patientId ReqStatus.accepted = none →
      addDisease db actor patientId name diagnosedDate status notes newId
        = (⟨403, "Access denied"⟩, db)) ∧
    (∀ (db : DB) (actor : Actor) (patientId : UserId) (text : String) (newId : Nat),
      actor.role = Role.doctor →
      findDoctorRequest db actor.userId patientId ReqStatus.accepted = none →
      addComment db actor patientId text newId = (⟨403, "Access denied"⟩, db)) ∧
    (∀ (db : DB) (actor : Actor) (patientId : UserId) (testName : String) (testDate : Nat)
      (results : String) (notes : Option String) (newId : Nat),
      actor.role = Role.doctor →
      findDoctorRequest db actor.userId patientId ReqStatus.accepted = none →
      addDiagnostic db actor patientId testName testDate results notes newId
        = (⟨403, "Access denied"⟩, db)) ∧
    (∀ (db : DB) (actor : Actor) (patientId : UserId) (appointmentId : Nat)
      (date : Option Nat) (reason notes : Option String)
      (mr : MedicalRecordRec) (appt : Appointment),
      actor.role = Role.doctor →
      findMedicalRecord db patientId = some mr →
      mr.appointments.find? (fun x => x.id == appointmentId) = some appt →
      (appt.doctor ≠ actor.userId →
        updateAppointment db actor patientId appointmentId date reason notes
          = (⟨403, "You can only modify your own appointments"⟩, db) ∧
        deleteAppointment db actor patientId appointmentId
          = (⟨403, "You can only delete your own appointments"⟩, db)) ∧
      (appt.doctor = actor.userId → ∀ u, findUser db actor.userId = some u →
        (updateAppointment db actor patientId appointmentId date reason notes).1.status
          = 200 ∧
        (deleteAppointment db actor patientId appointmentId).1.status = 200)) ∧
    (∀ (db : DB) (actor : Actor) (patientId : UserId) (appointmentId : Nat)
      (date : Option Nat) (reason notes : Option String)
      (mr : MedicalRecordRec) (appt : Appointment),
      actor.role = Role.receptionAgent →
      findMedicalRecord db patientId = some mr →
      mr.appointments.find? (fun x => x.id == appointmentId) = some appt →
      (findDoctorReceptionAgent db appt.doctor actor.userId ReqStatus.accepted = none →
        updateAppointment db actor patientId appointmentId date reason notes
          = (⟨403, "You can only modify appointments for your assigned doctors"⟩, db) ∧
        deleteAppointment db actor patientId appointmentId
          = (⟨403, "You can only delete appointments for your assigned doctors"⟩, db)) ∧
      (∀ w, findDoctorReceptionAgent db appt.doctor actor.userId ReqStatus.accepted = some w →
        ∀ u, findUser db appt.doctor = some u →
        (updateAppointment db actor patientId appointmentId date reason notes).1.status
          = 200 ∧
        (deleteAppointment db actor patientId appointmentId).1.status = 200)) ∧
    (∀ (db : DB) (actor : Actor) (patientId : UserId) (prescriptionId : Nat)
      (medication dosage duration instructions : Option String)
      (mr : MedicalRecordRec) (p : Prescription),
      actor.role = Role.doctor →
      findMedicalRecord db patientId = some mr →
      mr.prescriptions.find? (fun x => x.id == prescriptionId) = some p →
      (p.doctor ≠ actor.userId →
        updatePrescription db actor patientId prescriptionId medication dosage duration
          instructions = (⟨403, "You can only modify your own prescriptions"⟩, db) ∧
        deletePrescription db actor patientId prescriptionId
          = (⟨403, "You can only delete your own prescriptions"⟩, db)) ∧
      (p.doctor = actor.userId → ∀ u, findUser db actor.userId = some u →
        (updatePrescription db actor patientId prescriptionId medication dosage duration
          instructions).1.status = 200 ∧
        (deletePrescription db actor patientId prescriptionId).1.status = 200)) ∧
    (∀ (db : DB) (actor : Actor) (patientId : UserId) (diseaseId : Nat)
      (name : Option String) (diagnosedDate : Option Nat) (status notes : Option String)
      (mr : MedicalRecordRec) (d : Disease),
      actor.role = Role.doctor →
      findMedicalRecord db patientId = some mr →
      mr.diseases.find? (fun x => x.id == diseaseId) = some d →
      (d.doctor ≠ actor.userId →
        updateDisease db actor patientId diseaseId name diagnosedDate status notes
          = (⟨403, "You can only modify your own disease entries"⟩, db) ∧
        deleteDisease db actor patientId diseaseId
          = (⟨403, "You can only delete your own disease entries"⟩, db)) ∧
      (d.doctor = actor.userId → ∀ u, findUser db actor.userId = some u →
        (updateDisease db actor patientId diseaseId name diagnosedDate status
          notes).1.status = 200 ∧
        (deleteDisease db actor patientId diseaseId).1.status = 200)) ∧
    (∀ (db : DB) (actor : Actor) (patientId : UserId) (commentId : Nat)
      (text : Option String) (mr : MedicalRecordRec) (c : Comment),
      actor.role = Role.doctor →
      findMedicalRecord db patientId = some mr →
      mr.comments.find? (fun x => x.id == commentId) = some c →
      (c.doctor ≠ actor.userId →
        updateComment db actor patientId commentId text
          = (⟨403, "You can only modify your own comments"⟩, db) ∧
        deleteComment db actor patientId commentId
          = (⟨403, "You can only delete your own comments"⟩, db)) ∧
      (c.doctor = actor.userId → ∀ u, findUser db actor.userId = some u →
        (updateComment db actor patientId commentId text).1.status = 200 ∧
        (deleteComment db actor patientId commentId).1.status = 200)) ∧
    (∀ (db : DB) (actor : Actor) (patientId : UserId) (diagnosticId : Nat)
      (testName : Option String) (testDate : Option Nat) (results notes : Option String)
      (mr : MedicalRecordRec) (g : Diagnostic),
      actor.role = Role.doctor →
      findMedicalRecord db patientId = some mr →
      mr.diagnostics.find? (fun x => x.id == diagnosticId) = some g →
      (g.doctor ≠ actor.userId →
        updateDiagnostic db actor patientId diagnosticId testName testDate results notes
          = (⟨403, "You can only modify your own diagnostic entries"⟩, db) ∧
        deleteDiagnostic db actor patientId diagnosticId
          = (⟨403, "You can only delete your own diagnostic entries"⟩, db)) ∧
      (g.doctor = actor.userId → ∀ u, findUser db actor.userId = some u →
        (updateDiagnostic db actor patientId diagnosticId testName testDate results
          notes).1.status = 200 ∧
        (deleteDiagnostic db actor patientId diagnosticId).1.status = 200)) := by
  refine ⟨?_, ?_, ?_, ?_, ?_, ?_, ?_, ?_, ?_, ?_, ?_, ?_, ?_⟩
  · exact fun db actor pid date r n did nid h1 h2 =>
      addAppointment_doctor_gate db actor pid date r n did nid h1 h2
  · exact fun db actor pid did date r n nid h1 h2 =>
      addAppointment_agent_nodelegation db actor pid did date r n nid h1 h2
  · exact fun db actor pid did w date r n nid h1 h2 h3 =>
      addAppointment_agent_nodoctoraccess db actor pid did w date r n nid h1 h2 h3
  · exact fun db actor pid m d dur ins nid h1 h2 =>
      addPrescription_gate db actor pid m d dur ins nid h1 h2
  · exact fun db actor pid nm dd st n nid h1 h2 =>
      addDisease_gate db actor pid nm dd st n nid h1 h2
  · exact fun db actor pid t nid h1 h2 => addComment_gate db actor pid t nid h1 h2
  · exact fun db actor pid tn td rs n nid h1 h2 =>
      addDiagnostic_gate db actor pid tn td rs n nid h1 h2
  · intro db actor pid aid date r n mr appt h1 h2 h3
    exact ⟨fun hne =>
        ⟨updateAppointment_nonauthor db actor pid aid date r n mr appt h1 h2 h3 hne,
          deleteAppointment_nonauthor db actor pid aid mr appt h1 h2 h3 hne⟩,
      fun heq u hu =>
        ⟨updateAppointment_author db actor pid aid date r n mr appt u h1 h2 h3 heq hu,
          deleteAppointment_author db actor pid aid mr appt u h1 h2 h3 heq hu⟩⟩
  · intro db actor pid aid date r n mr appt h1 h2 h3
    exact ⟨fun hnone =>
        ⟨updateAppointment_agent_nodelegation db actor pid aid date r n mr appt h1 h2 h3 hnone,
          deleteAppointment_agent_nodelegation db actor pid aid mr appt h1 h2 h3 hnone⟩,
      fun w hdel u hu =>
        ⟨updateAppointment_agent_delegated db actor pid aid date r n mr appt w u h1 h2 h3
            hdel hu,
          deleteAppointment_agent_delegated db actor pid aid mr appt w u h1 h2 h3 hdel hu⟩⟩
  · intro db actor pid prid m d dur ins mr p h1 h2 h3
    exact ⟨fun hne =>
        ⟨updatePrescription_nonauthor db actor pid prid m d dur ins mr p h1 h2 h3 hne,
          deletePrescription_nonauthor db actor pid prid mr p h1 h2 h3 hne⟩,
      fun heq u hu =>
        ⟨updatePrescription_author db actor pid prid m d dur ins mr p u h1 h2 h3 heq hu,
          deletePrescription_author db actor pid prid mr p u h1 h2 h3 heq hu⟩⟩
  · intro db actor pid did nm dd st n mr d h1 h2 h3
    exact ⟨fun hne =>
        ⟨updateDisease_nonauthor db actor pid did nm dd st n mr d h1 h2 h3 hne,
          deleteDisease_nonauthor db actor pid did mr d h1 h2 h3 hne⟩,
      fun heq u hu =>
        ⟨updateDisease_author db actor pid did nm dd st n mr d u h1 h2 h3 heq hu,
          deleteDisease_author db actor pid did mr d u h1 h2 h3 heq hu⟩⟩
  · intro db actor pid cid t mr c h1 h2 h3
    exact ⟨fun hne =>
        ⟨updateComment_nonauthor db actor pid cid t mr c h1 h2 h3 hne,
          deleteComment_nonauthor db actor pid cid mr c h1 h2 h3 hne⟩,
      fun heq u hu =>
        ⟨updateComment_author db actor pid cid t mr c u h1 h2 h3 heq hu,
          deleteComment_author db actor pid cid mr c u h1 h2 h3 heq hu⟩⟩
  · intro db actor pid gid tn td rs n mr g h1 h2 h3
    exact ⟨fun hne =>
        ⟨updateDiagnostic_nonauthor db actor pid gid tn td rs n mr g h1 h2 h3 hne,
          deleteDiagnostic_nonauthor db actor pid gid mr g h1 h2 h3 hne⟩,
      fun heq u hu =>
        ⟨updateDiagnostic_author db actor pid gid tn td rs n mr g u h1 h2 h3 heq hu,
          deleteDiagnostic_author db actor pid gid mr g u h1 h2 h3 heq hu⟩⟩

theorem mutation_gate_amended_witness :
    addPrescription dbA ⟨4, Role.doctor⟩ 5 "Med" "1x" none none 77
      = (⟨403, "Access denied"⟩, dbA) ∧
    (updatePrescription dbA ⟨4, Role.doctor⟩ 2 41 (some "Aspirin") none none none).1.status
      = 200 := by
  obtain ⟨-, -, -, hgate, -, -, -, -, -, hpres, -⟩ := mutation_gate_amended
  refine ⟨hgate dbA ⟨4, Role.doctor⟩ 5 "Med" "1x" none none 77 rfl (by decide), ?_⟩
  exact ((hpres dbA ⟨4, Role.doctor⟩ 2 41 (some "Aspirin") none none none
      ⟨2, [], [⟨40, 1, "Amoxicillin", "500mg", none, none⟩,
        ⟨41, 4, "Ibuprofen", "200mg", none, none⟩], [], [], []⟩
      ⟨41, 4, "Ibuprofen", "200mg", none, none⟩
      rfl (by decide) (by decide)).2 rfl ⟨4, Role.doctor, "Dana", "Dorr"⟩ (by decide)).1

theorem respondDoctorRequest_notfound (db : DB) (actor : Actor) (reqId : Nat)
    (status : String)
    (hrole : actor.role = Role.patient)
    (hstatus : status = "accepted" ∨ status = "rejected")
    (hnone : db.doctorRequests.find? (fun r =>
      r.id == reqId && r.patient == actor.userId && r.status == ReqStatus.pending) = none) :
    respondDoctorRequest db actor reqId status
      = (⟨404, "Request not found or already processed"⟩, db) := by
  rcases hstatus with h | h <;> subst h <;>
    simp [respondDoctorRequest, hrole, hnone]

theorem respondDoctorRequest_accept (db : DB) (actor : Actor) (reqId : Nat)
    (dr : DoctorRequestRec) (u : UserRec)
    (hrole : actor.role = Role.patient)
    (hfind : db.doctorRequests.find? (fun r =>
      r.id == reqId && r.patient == actor.userId && r.status == ReqStatus.pending) = some dr)
    (hu : findUser db actor.userId = some u) :
    (respondDoctorRequest db actor reqId "accepted").1
      = ⟨200, "Request accepted successfully"⟩ ∧
    (respondDoctorRequest db actor reqId "accepted").2.doctorRequests
      = db.doctorRequests.map
          (fun r => if r.id = dr.id then { r with status := ReqStatus.accepted } else r) ∧
    (findMedicalRecord db actor.userId = none →
      (respondDoctorRequest db actor reqId "accepted").2.medicalRecords
        = db.medicalRecords ++ [emptyRecord actor.userId]) ∧
    (∀ mr0, findMedicalRecord db actor.userId = some mr0 →
      (respondDoctorRequest db actor reqId "accepted").2.medicalRecords
        = db.medicalRecords) := by
  have hu2 := hu
  simp only [findUser] at hu2
  cases hm : findMedicalRecord db actor.userId with
  | none =>
      have hm0 := hm
      simp only [findMedicalRecord] at hm
      refine ⟨?_, ?_, fun _ => ?_, fun mr0 hmr0 => ?_⟩
      · simp [respondDoctorRequest, hrole, hfind, hu2, notifyRequestAccepted,
          findUser, findMedicalRecord, hm, insertMedicalRecord,
          createNotification, setDoctorRequestStatus]
      · simp [respondDoctorRequest, hrole, hfind, hu2, notifyRequestAccepted,
          findUser, findMedicalRecord, hm, insertMedicalRecord,
          createNotification, setDoctorRequestStatus]
      · simp [respondDoctorRequest, hrole, hfind, hu2, notifyRequestAccepted,
          findUser, findMedicalRecord, hm, insertMedicalRecord,
          createNotification, setDoctorRequestStatus]
      · simp [hm0] at hmr0
  | some mr1 =>
      have hm0 := hm
      simp only [findMedicalRecord] at hm
      refine ⟨?_, ?_, fun hn => ?_, fun mr0 hmr0 => ?_⟩
      · simp [respondDoctorRequest, hrole, hfind, hu2, notifyRequestAccepted,
          findUser, findMedicalRecord, hm,
          createNotification, setDoctorRequestStatus]
      · simp [respondDoctorRequest, hrole, hfind, hu2, notifyRequestAccepted,
          findUser, findMedicalRecord, hm,
          createNotification, setDoctorRequestStatus]
      · simp [hm0] at hn
      · simp [respondDoctorRequest, hrole, hfind, hu2, notifyRequestAccepted,
          findUser, findMedicalRecord, hm,
          createNotification, setDoctorRequestStatus]

theorem respondDoctorRequest_reject (db : DB) (actor : Actor) (reqId : Nat)
    (dr : DoctorRequestRec) (u : UserRec)
    (hrole : actor.role = Role.patient)
    (hfind : db.doctorRequests.find? (fun r =>
      r.id == reqId && r.patient == actor.userId && r.status == ReqStatus.pending) = some dr)
    (hu : findUser db actor.userId = some u) :
    (respondDoctorRequest db actor reqId "rejected").1
      = ⟨200, "Request rejected successfully"⟩ ∧
    (respondDoctorRequest db actor reqId "rejected").2.doctorRequests
      = db.doctorRequests.map
          (fun r => if r.id = dr.id then { r with status := ReqStatus.rejected } else r) ∧
    (respondDoctorRequest db actor reqId "rejected").2.medicalRecords
      = db.medicalRecords := by
  have hu2 := hu
  simp only [findUser] at hu2
  refine ⟨?_, ?_, ?_⟩ <;>
    simp [respondDoctorRequest, hrole, hfind, hu2, notifyRequestRejected,
      findUser, createNotification, setDoctorRequestStatus]

theorem respondDoctorRequest_accept_twice (db : DB) (actor : Actor) (reqId : Nat)
    (dr : DoctorRequestRec) (u : UserRec) (status2 : String)
    (hrole : actor.role = Role.patient)
    (hfind : db.doctorRequests.find? (fun r =>
      r.id == reqId && r.patient == actor.userId && r.status == ReqStatus.pending) = some dr)
    (hu : findUser db actor.userId = some u)
    (hs2 : status2 = "accepted" ∨ status2 = "rejected") :
    respondDoctorRequest (respondDoctorRequest db actor reqId "accepted").2 actor reqId status2
      = (⟨404, "Request not found or already processed"⟩,
          (respondDoctorRequest db actor reqId "accepted").2) := by
  apply respondDoctorRequest_notfound _ _ _ _ hrole hs2
  rw [(respondDoctorRequest_accept db actor reqId dr u hrole hfind hu).2.1]
  apply List.find?_eq_none.mpr
  intro x hx
  rcases List.mem_map.mp hx with ⟨r, hr, rfl⟩
  have hdr := List.find?_some hfind
  simp only [Bool.and_eq_true, beq_iff_eq] at hdr
  obtain ⟨⟨hid, hpat⟩, hst⟩ := hdr
  by_cases hcase : r.id = dr.id
  · simp [hcase]
  · have hne : r.id ≠ reqId := by rw [← hid]; exact hcase
    simp [hcase, hne]

/-- C3: responding to a DoctorRequest fails with 404 and changes nothing
unless a record with that id, patient = responder, and status pending exists;
otherwise it sets the status to the decision, and on acceptance ensures a
MedicalRecord exists for the patient (created empty if absent, left untouched
if present); consequently a second accept or reject of the same request
returns 404 and changes no state at all — no duplicated medical record and no
duplicate notification. -/
theorem respond_request_spec :
    (∀ (db : DB) (actor : Actor) (reqId : Nat) (status : String),
      actor.role = Role.patient →
      (status = "accepted" ∨ status = "rejected") →
      db.doctorRequests.find? (fun r =>
        r.id == reqId && r.patient == actor.userId && r.status == ReqStatus.pending)
          = none →
      respondDoctorRequest db actor reqId status
        = (⟨404, "Request not found or already processed"⟩, db)) ∧
    (∀ (db : DB) (actor : Actor) (reqId : Nat) (dr : DoctorRequestRec) (u : UserRec),
      actor.role = Role.patient →
      db.doctorRequests.find? (fun r =>
        r.id == reqId && r.patient == actor.userId && r.status == ReqStatus.pending)
          = some dr →
      findUser db actor.userId = some u →
      ((respondDoctorRequest db actor reqId "accepted").1
          = ⟨200, "Request accepted successfully"⟩ ∧
        (respondDoctorRequest db actor reqId "accepted").2.doctorRequests
          = db.doctorRequests.map
              (fun r => if r.id = dr.id then { r with status := ReqStatus.accepted } else r) ∧
        (findMedicalRecord db actor.userId = none →
          (respondDoctorRequest db actor reqId "accepted").2.medicalRecords
            = db.medicalRecords ++ [emptyRecord actor.userId]) ∧
        (∀ mr0, findMedicalRecord db actor.userId = some mr0 →
          (respondDoctorRequest db actor reqId "accepted").2.medicalRecords
            = db.medicalRecords)) ∧
      ((respondDoctorRequest db actor reqId "rejected").1
          = ⟨200, "Request rejected successfully"⟩ ∧
        (respondDoctorRequest db actor reqId "rejected").2.doctorRequests
          = db.doctorRequests.map
              (fun r => if r.id = dr.id then { r with status := ReqStatus.rejected } else r) ∧
        (respondDoctorRequest db actor reqId "rejected").2.medicalRecords
          = db.medicalRecords)) ∧
    (∀ (db : DB) (actor : Actor) (reqId : Nat) (dr : DoctorRequestRec) (u : UserRec)
      (status2 : String),
      actor.role = Role.patient →
      db.doctorRequests.find? (fun r =>
        r.id == reqId && r.patient == actor.userId && r.status == ReqStatus.pending)
          = some dr →
      findUser db actor.userId = some u →
      (status2 = "accepted" ∨ status2 = "rejected") →
      respondDoctorRequest (respondDoctorRequest db actor reqId "accepted").2 actor reqId
          status2
        = (⟨404, "Request not found or already processed"⟩,
            (respondDoctorRequest db actor reqId "accepted").2)) := by
  refine ⟨?_, ?_, ?_⟩
  · exact fun db actor reqId status h1 h2 h3 =>
      respondDoctorRequest_notfound db actor reqId status h1 h2 h3
  · intro db actor reqId dr u h1 h2 h3
    exact ⟨respondDoctorRequest_accept db actor reqId dr u h1 h2 h3,
      respondDoctorRequest_reject db actor reqId dr u h1 h2 h3⟩
  · exact fun db actor reqId dr u status2 h1 h2 h3 h4 =>
      respondDoctorRequest_accept_twice db actor reqId dr u status2 h1 h2 h3 h4

theorem respond_request_spec_witness :
    (respondDoctorRequest dbA ⟨2, Role.patient⟩ 12 "accepted").1
      = ⟨200, "Request accepted successfully"⟩ ∧
    respondDoctorRequest (respondDoctorRequest dbA ⟨2, Role.patient⟩ 12 "accepted").2
        ⟨2, Role.patient⟩ 12 "accepted"
      = (⟨404, "Request not found or already processed"⟩,
          (respondDoctorRequest dbA ⟨2, Role.patient⟩ 12 "accepted").2) := by
  obtain ⟨-, hsucc, htwice⟩ := respond_request_spec
  exact ⟨(hsucc dbA ⟨2, Role.patient⟩ 12 ⟨12, 4, 2, ReqStatus.pending⟩
      ⟨2, Role.patient, "Bob", "Bent"⟩ rfl (by decide) (by decide)).1.1,
    htwice dbA ⟨2, Role.patient⟩ 12 ⟨12, 4, 2, ReqStatus.pending⟩
      ⟨2, Role.patient, "Bob", "Bent"⟩ "accepted" rfl (by decide) (by decide) (Or.inl rfl)⟩

theorem atMostOnePerKey_unique {α : Type} (key : α → Nat × Nat) (l : List α)
    (h : atMostOnePerKey key l) :
    ∀ r1 ∈ l, ∀ r2 ∈ l, key r1 = key r2 → r1 = r2 := by
  induction l with
  | nil => simp
  | cons a t ih =>
      rcases List.pairwise_cons.mp h with ⟨ha, ht⟩
      intro r1 h1 r2 h2 hk
      rcases List.mem_cons.mp h1 with rfl | h1t
      · rcases List.mem_cons.mp h2 with rfl | h2t
        · rfl
        · exact absurd hk (ha _ h2t)
      · rcases List.mem_cons.mp h2 with rfl | h2t
        · exact absurd hk.symm (ha _ h1t)
        · exact ih ht _ h1t _ h2t hk

theorem atMostOnePerKey_congrMap {α : Type} (key : α → Nat × Nat) (l : List α) (f : α → α)
    (h : atMostOnePerKey key l) (hf : ∀ a, key (f a) = key a) :
    atMostOnePerKey key (l.map f) := by
  unfold atMostOnePerKey at h ⊢
  rw [List.pairwise_map]
  refine h.imp ?_
  intro a b hab
  rw [hf a, hf b]
  exact hab

theorem atMostOnePerKey_append {α : Type} (key : α → Nat × Nat) (l : List α) (r0 : α)
    (h : atMostOnePerKey key l) (hfresh : ∀ a ∈ l, key a ≠ key r0) :
    atMostOnePerKey key (l ++ [r0]) := by
  unfold atMostOnePerKey at h ⊢
  rw [List.pairwise_append]
  refine ⟨h, List.pairwise_singleton _ _, ?_⟩
  intro a ha b hb
  rw [List.mem_singleton.mp hb]
  exact hfresh a ha

theorem sendDoctorRequest_conflict (db : DB) (actor : Actor) (pid : UserId) (nid : Nat)
    (w : UserRec) (ex : DoctorRequestRec)
    (hrole : actor.role = Role.doctor)
    (hpat : db.users.find? (fun u => u.id == pid && u.role == Role.patient) = some w)
    (hex : findDoctorRequestPair db actor.userId pid = some ex)
    (hrej : ex.status ≠ ReqStatus.rejected) :
    sendDoctorRequest db actor (some pid) nid
      = (⟨400, "Request already " ++ statusString ex.status⟩, db) := by
  simp [sendDoctorRequest, hrole, hpat, hex, hrej]

theorem sendDoctorRequest_resend (db : DB) (actor : Actor) (pid : UserId) (nid : Nat)
    (w : UserRec) (ex : DoctorRequestRec) (u : UserRec)
    (hrole : actor.role = Role.doctor)
    (hpat : db.users.find? (fun u => u.id == pid && u.role == Role.patient) = some w)
    (hex : findDoctorRequestPair db actor.userId pid = some ex)
    (hrej : ex.status = ReqStatus.rejected)
    (hu : findUser db actor.userId = some u) :
    (sendDoctorRequest db actor (some pid) nid).1 = ⟨200, "Request resent successfully"⟩ ∧
    (sendDoctorRequest db actor (some pid) nid).2.doctorRequests
      = db.doctorRequests.map
          (fun r => if r.id = ex.id then { r with status := ReqStatus.pending } else r) := by
  have hu2 := hu
  simp only [findUser] at hu2
  refine ⟨?_, ?_⟩ <;>
    simp [sendDoctorRequest, hrole, hpat, hex, hrej, hu2, findUser,
      setDoctorRequestStatus, notifyDoctorRequest, createNotification]

theorem sendDoctorRequest_fresh (db : DB) (actor : Actor) (pid : UserId) (nid : Nat)
    (w : UserRec) (u : UserRec)
    (hrole : actor.role = Role.doctor)
    (hpat : db.users.find? (fun u => u.id == pid && u.role == Role.patient) = some w)
    (hnone : findDoctorRequestPair db actor.userId pid = none)
    (hu : findUser db actor.userId = some u) :
    (sendDoctorRequest db actor (some pid) nid).1 = ⟨201, "Request sent successfully"⟩ ∧
    (sendDoctorRequest db actor (some pid) nid).2.doctorRequests
      = db.doctorRequests ++ [⟨nid, actor.userId, pid, ReqStatus.pending⟩] := by
  have hu2 := hu
  simp only [findUser] at hu2
  refine ⟨?_, ?_⟩ <;>
    simp [sendDoctorRequest, hrole, hpat, hnone, hu2, findUser,
      insertDoctorRequest, notifyDoctorRequest, createNotification]

theorem sendDoctorRequest_preserves (db : DB) (actor : Actor) (patientId : Option UserId)
    (nid : Nat) (h : atMostOnePerKey drKey db.doctorRequests) :
    atMostOnePerKey drKey ((sendDoctorRequest db actor patientId nid).2).doctorRequests := by
  have hmap : ∀ (i : Nat) (st : ReqStatus),
      atMostOnePerKey drKey (db.doctorRequests.map
        (fun r => if r.id = i then { r with status := st } else r)) := by
    intro i st
    refine atMostOnePerKey_congrMap drKey db.doctorRequests _ h ?_
    intro a
    by_cases hc : a.id = i <;> simp [hc, drKey]
  unfold sendDoctorRequest
  split
  · exact h
  · split
    · exact h
    · rename_i did
      split
      · exact h
      · split
        · split
          · dsimp only
            split
            · exact hmap _ _
            · exact hmap _ _
          · exact h
        · rename_i x hnone
          have hfresh : ∀ a ∈ db.doctorRequests,
              drKey a ≠ drKey (⟨nid, actor.userId, did, ReqStatus.pending⟩ :
                DoctorRequestRec) := by
            intro a ha
            have hq := List.find?_eq_none.mp hnone a ha
            simp only [Bool.and_eq_true, beq_iff_eq, not_and] at hq
            intro hk
            unfold drKey at hk
            exact hq (congrArg Prod.fst hk) (congrArg Prod.snd hk)
          dsimp only
          split
          · exact atMostOnePerKey_append drKey db.doctorRequests _ h hfresh
          · exact atMostOnePerKey_append drKey db.doctorRequests _ h hfresh

theorem inviteReceptionAgent_conflict (db : DB) (actor : Actor) (aid : UserId) (nid : Nat)
    (w : UserRec) (ex : DoctorReceptionAgentRec)
    (hrole : actor.role = Role.doctor)
    (hag : db.users.find? (fun u => u.id == aid && u.role == Role.receptionAgent) = some w)
    (hex : findDoctorReceptionAgentPair db actor.userId aid = some ex)
    (hrej : ex.status ≠ ReqStatus.rejected) :
    inviteReceptionAgent db actor (some aid) nid
      = (⟨400, "Invitation already " ++ statusString ex.status⟩, db) := by
  simp [inviteReceptionAgent, hrole, hag, hex, hrej]

theorem inviteReceptionAgent_resend (db : DB) (actor : Actor) (aid : UserId) (nid : Nat)
    (w : UserRec) (ex : DoctorReceptionAgentRec) (u : UserRec)
    (hrole : actor.role = Role.doctor)
    (hag : db.users.find? (fun u => u.id == aid && u.role == Role.receptionAgent) = some w)
    (hex : findDoctorReceptionAgentPair db actor.userId aid = some ex)
    (hrej : ex.status = ReqStatus.rejected)
    (hu : findUser db actor.userId = some u) :
    (inviteReceptionAgent db actor (some aid) nid).1
      = ⟨200, "Invitation resent successfully"⟩ ∧
    (inviteReceptionAgent db actor (some aid) nid).2.doctorReceptionAgents
      = db.doctorReceptionAgents.map
          (fun r => if r.id = ex.id then { r with status := ReqStatus.pending } else r) := by
  have hu2 := hu
  simp only [findUser] at hu2
  refine ⟨?_, ?_⟩ <;>
    simp [inviteReceptionAgent, hrole, hag, hex, hrej, hu2, findUser,
      setDoctorReceptionAgentStatus, createNotification]

theorem inviteReceptionAgent_fresh (db : DB) (actor : Actor) (aid : UserId) (nid : Nat)
    (w : UserRec) (u : UserRec)
    (hrole : actor.role = Role.doctor)
    (hag : db.users.find? (fun u => u.id == aid && u.role == Role.receptionAgent) = some w)
    (hnone : findDoctorReceptionAgentPair db actor.userId aid = none)
    (hu : findUser db actor.userId = some u) :
    (inviteReceptionAgent db actor (some aid) nid).1
      = ⟨201, "Invitation sent successfully"⟩ ∧
    (inviteReceptionAgent db actor (some aid) nid).2.doctorReceptionAgents
      = db.doctorReceptionAgents ++ [⟨nid, actor.userId, aid, ReqStatus.pending⟩] := by
  have hu2 := hu
  simp only [findUser] at hu2
  refine ⟨?_, ?_⟩ <;>
    simp [inviteReceptionAgent, hrole, hag, hnone, hu2, findUser,
      insertDoctorReceptionAgent, createNotification]

theorem inviteReceptionAgent_preserves (db : DB) (actor : Actor)
    (receptionAgentId : Option UserId) (nid : Nat)
    (h : atMostOnePerKey draKey db.doctorReceptionAgents) :
    atMostOnePerKey draKey
      ((inviteReceptionAgent db actor receptionAgentId nid).2).doctorReceptionAgents := by
  have hmap : ∀ (i : Nat) (st : ReqStatus),
      atMostOnePerKey draKey (db.doctorReceptionAgents.map
        (fun r => if r.id = i then { r with status := st } else r)) := by
    intro i st
    refine atMostOnePerKey_congrMap draKey db.doctorReceptionAgents _ h ?_
    intro a
    by_cases hc : a.id = i <;> simp [hc, draKey]
  unfold inviteReceptionAgent
  split
  · exact h
  · split
    · exact h
    · rename_i aid
      split
      · exact h
      · split
        · split
          · dsimp only
            split
            · exact hmap _ _
            · exact hmap _ _
          · exact h
        · rename_i x hnone
          have hfresh : ∀ a ∈ db.doctorReceptionAgents,
              draKey a ≠ draKey (⟨nid, actor.userId, aid, ReqStatus.pending⟩ :
                DoctorReceptionAgentRec) := by
            intro a ha
            have hq := List.find?_eq_none.mp hnone a ha
            simp only [Bool.and_eq_true, beq_iff_eq, not_and] at hq
            intro hk
            unfold draKey at hk
            exact hq (congrArg Prod.fst hk) (congrArg Prod.snd hk)
          dsimp only
          split
          · exact atMostOnePerKey_append draKey db.doctorReceptionAgents _ h hfresh
          · exact atMostOnePerKey_append draKey db.doctorReceptionAgents _ h hfresh

/-- C4: for the two uniqueness-constrained relationship variants, create
conflicts with 400 and inserts nothing when a pending/accepted record for the
pair exists; transitions the existing record back to pending (inserting
nothing) when a rejected record exists; inserts a new pending record only
when no record exists for the pair; and in every case preserves the
at-most-one-record-per-pair invariant, under which a pair can never carry two
distinct records, in particular never two non-rejected ones. -/
theorem relationship_create_unique :
    (∀ (db : DB) (actor : Actor) (pid : UserId) (nid : Nat) (w : UserRec)
      (ex : DoctorRequestRec),
      actor.role = Role.doctor →
      db.users.find? (fun u => u.id == pid && u.role == Role.patient) = some w →
      findDoctorRequestPair db actor.userId pid = some ex →
      ex.status ≠ ReqStatus.rejected →
      sendDoctorRequest db actor (some pid) nid
        = (⟨400, "Request already " ++ statusString ex.status⟩, db)) ∧
    (∀ (db : DB) (actor : Actor) (pid : UserId) (nid : Nat) (w : UserRec)
      (ex : DoctorRequestRec) (u : UserRec),
      actor.role = Role.doctor →
      db.users.find? (fun u => u.id == pid && u.role == Role.patient) = some w →
      findDoctorRequestPair db actor.userId pid = some ex →
      ex.status = ReqStatus.rejected →
      findUser db actor.userId = some u →
      (sendDoctorRequest db actor (some pid) nid).1
        = ⟨200, "Request resent successfully"⟩ ∧
      (sendDoctorRequest db actor (some pid) nid).2.doctorRequests
        = db.doctorRequests.map
            (fun r => if r.id = ex.id then { r with status := ReqStatus.pending } else r)) ∧
    (∀ (db : DB) (actor : Actor) (pid : UserId) (nid : Nat) (w : UserRec) (u : UserRec),
      actor.role = Role.doctor →
      db.users.find? (fun u => u.id == pid && u.role == Role.patient) = some w →
      findDoctorRequestPair db actor.userId pid = none →
      findUser db actor.userId = some u →
      (sendDoctorRequest db actor (some pid) nid).1
        = ⟨201, "Request sent successfully"⟩ ∧
      (sendDoctorRequest db actor (some pid) nid).2.doctorRequests
        = db.doctorRequests ++ [⟨nid, actor.userId, pid, ReqStatus.pending⟩]) ∧
    (∀ (db : DB) (actor : Actor) (patientId : Option UserId) (nid : Nat),
      atMostOnePerKey drKey db.doctorRequests →
      atMostOnePerKey drKey ((sendDoctorRequest db actor patientId nid).2).doctorRequests) ∧
    (∀ (db : DB) (actor : Actor) (aid : UserId) (nid : Nat) (w : UserRec)
      (ex : DoctorReceptionAgentRec),
      actor.role = Role.doctor →
      db.users.find? (fun u => u.id == aid && u.role == Role.receptionAgent) = some w →
      findDoctorReceptionAgentPair db actor.userId aid = some ex →
      ex.status ≠ ReqStatus.rejected →
      inviteReceptionAgent db actor (some aid) nid
        = (⟨400, "Invitation already " ++ statusString ex.status⟩, db)) ∧
    (∀ (db : DB) (actor : Actor) (aid : UserId) (nid : Nat) (w : UserRec)
      (ex : DoctorReceptionAgentRec) (u : UserRec),
      actor.role = Role.doctor →
      db.users.find? (fun u => u.id == aid && u.role == Role.receptionAgent) = some w →
      findDoctorReceptionAgentPair db actor.userId aid = some ex →
      ex.status = ReqStatus.rejected →
      findUser db actor.userId = some u →
      (inviteReceptionAgent db actor (some aid) nid).1
        = ⟨200, "Invitation resent successfully"⟩ ∧
      (inviteReceptionAgent db actor (some aid) nid).2.doctorReceptionAgents
        = db.doctorReceptionAgents.map
            (fun r => if r.id = ex.id then { r with status := ReqStatus.pending } else r)) ∧
    (∀ (db : DB) (actor : Actor) (aid : UserId) (nid : Nat) (w : UserRec) (u : UserRec),
      actor.role = Role.doctor →
      db.users.find? (fun u => u.id == aid && u.role == Role.receptionAgent) = some w →
      findDoctorReceptionAgentPair db actor.userId aid = none →
      findUser db actor.userId = some u →
      (inviteReceptionAgent db actor (some aid) nid).1
        = ⟨201, "Invitation sent successfully"⟩ ∧
      (inviteReceptionAgent db actor (some aid) nid).2.doctorReceptionAgents
        = db.doctorReceptionAgents ++ [⟨nid, actor.userId, aid, ReqStatus.pending⟩]) ∧
    (∀ (db : DB) (actor : Actor) (receptionAgentId : Option UserId) (nid : Nat),
      atMostOnePerKey draKey db.doctorReceptionAgents →
      atMostOnePerKey draKey
        ((inviteReceptionAgent db actor receptionAgentId nid).2).doctorReceptionAgents) ∧
    (∀ l : List DoctorRequestRec, atMostOnePerKey drKey l →
      ∀ r1 ∈ l, ∀ r2 ∈ l,
        r1.doctor = r2.doctor → r1.patient = r2.patient → r1 = r2) := by
  refine ⟨?_, ?_, ?_, ?_, ?_, ?_, ?_, ?_, ?_⟩
  · exact fun db actor pid nid w ex h1 h2 h3 h4 =>
      sendDoctorRequest_conflict db actor pid nid w ex h1 h2 h3 h4
  · exact fun db actor pid nid w ex u h1 h2 h3 h4 h5 =>
      sendDoctorRequest_resend db actor pid nid w ex u h1 h2 h3 h4 h5
  · exact fun db actor pid nid w u h1 h2 h3 h4 =>
      sendDoctorRequest_fresh db actor pid nid w u h1 h2 h3 h4
  · exact fun db actor patientId nid h => sendDoctorRequest_preserves db actor patientId nid h
  · exact fun db actor aid nid w ex h1 h2 h3 h4 =>
      inviteReceptionAgent_conflict db actor aid nid w ex h1 h2 h3 h4
  · exact fun db actor aid nid w ex u h1 h2 h3 h4 h5 =>
      inviteReceptionAgent_resend db actor aid nid w ex u h1 h2 h3 h4 h5
  · exact fun db actor aid nid w u h1 h2 h3 h4 =>
      inviteReceptionAgent_fresh db actor aid nid w u h1 h2 h3 h4
  · exact fun db actor receptionAgentId nid h =>
      inviteReceptionAgent_preserves db actor receptionAgentId nid h
  · intro l hl r1 h1 r2 h2 hd hp
    exact atMostOnePerKey_unique drKey l hl r1 h1 r2 h2 (by simp [drKey, hd, hp])

theorem relationship_create_unique_witness :
    sendDoctorRequest dbA ⟨1, Role.doctor⟩ (some 2) 99
      = (⟨400, "Request already accepted"⟩, dbA) ∧
    (sendDoctorRequest dbA ⟨4, Role.doctor⟩ (some 5) 99).1
      = ⟨201, "Request sent successfully"⟩ ∧
    inviteReceptionAgent dbA ⟨1, Role.doctor⟩ (some 3) 99
      = (⟨400, "Invitation already accepted"⟩, dbA) := by
  obtain ⟨hconf, -, hfresh, -, hiconf, -⟩ := relationship_create_unique
  exact ⟨hconf dbA ⟨1, Role.doctor⟩ 2 99 ⟨2, Role.patient, "Bob", "Bent"⟩
      ⟨10, 1, 2, ReqStatus.accepted⟩ rfl (by decide) (by decide) (by decide),
    (hfresh dbA ⟨4, Role.doctor⟩ 5 99 ⟨5, Role.patient, "Eli", "Eden"⟩
      ⟨4, Role.doctor, "Dana", "Dorr"⟩ rfl (by decide) (by decide) (by decide)).1,
    hiconf dbA ⟨1, Role.doctor⟩ 3 99 ⟨3, Role.receptionAgent, "Cleo", "Carr"⟩
      ⟨20, 1, 3, ReqStatus.accepted⟩ rfl (by decide) (by decide) (by decide)⟩

/-- C2: when a doctor accepts a pending AppointmentInvitation from patient P,
afterwards an accepted DoctorRequest (doctor, P) exists: freshly inserted
with status accepted when no record existed for the pair, and an existing
record of any status is set to accepted; moreover P's medical record (created
if absent) afterwards holds an appointment authored by the doctor carrying
the invitation's appointmentDate and reason. -/
theorem accept_invitation_creates_access
    (db : DB) (actor : Actor) (invId newReqId newApptId : Nat)
    (inv : AppointmentInvitationRec) (u : UserRec)
    (hrole : actor.role = Role.doctor)
    (hinv : db.appointmentInvitations.find? (fun i =>
      i.id == invId && i.doctor == actor.userId) = some inv)
    (hpend : inv.status = ReqStatus.pending)
    (hu : findUser db actor.userId = some u) :
    (respondAppointmentInvitation db actor invId "accepted" newReqId newApptId).1
      = ⟨200, "Invitation accepted"⟩ ∧
    (∃ r ∈ (respondAppointmentInvitation db actor invId "accepted" newReqId
        newApptId).2.doctorRequests,
      r.doctor = actor.userId ∧ r.patient = inv.patient ∧ r.status = ReqStatus.accepted) ∧
    (findDoctorRequestPair db actor.userId inv.patient = none →
      (respondAppointmentInvitation db actor invId "accepted" newReqId
          newApptId).2.doctorRequests
        = db.doctorRequests ++ [⟨newReqId, actor.userId, inv.patient, ReqStatus.accepted⟩]) ∧
    (∀ dr, findDoctorRequestPair db actor.userId inv.patient = some dr →
      ({ dr with status := ReqStatus.accepted }) ∈
        (respondAppointmentInvitation db actor invId "accepted" newReqId
          newApptId).2.doctorRequests) ∧
    (∃ mr ∈ (respondAppointmentInvitation db actor invId "accepted" newReqId
        newApptId).2.medicalRecords,
      mr.patient = inv.patient ∧
        ∃ ap ∈ mr.appointments, ap.doctor = actor.userId ∧
          ap.date = inv.appointmentDate ∧ ap.reason = inv.reason) := by
  have hu2 := hu
  simp only [findUser] at hu2
  cases hpair0 : findDoctorRequestPair db actor.userId inv.patient with
  | none =>
      have hp2 := hpair0
      simp only [findDoctorRequestPair] at hp2
      cases hm0 : findMedicalRecord db inv.patient with
      | none =>
          have hm2 := hm0
          simp only [findMedicalRecord] at hm2
          refine ⟨?_, ?_, fun _ => ?_, fun dr hdr => ?_, ?_⟩
          · simp [respondAppointmentInvitation, hrole, hinv, hpend, hu2, findUser,
              findDoctorRequestPair, findMedicalRecord, setAppointmentInvitationStatus,
              insertDoctorRequest, insertMedicalRecord, updateMedicalRecord,
              createNotification, hp2, hm2]
          · refine ⟨⟨newReqId, actor.userId, inv.patient, ReqStatus.accepted⟩, ?_, rfl, rfl, rfl⟩
            simp [respondAppointmentInvitation, hrole, hinv, hpend, hu2, findUser,
              findDoctorRequestPair, findMedicalRecord, setAppointmentInvitationStatus,
              insertDoctorRequest, insertMedicalRecord, updateMedicalRecord,
              createNotification, hp2, hm2]
          · simp [respondAppointmentInvitation, hrole, hinv, hpend, hu2, findUser,
              findDoctorRequestPair, findMedicalRecord, setAppointmentInvitationStatus,
              insertDoctorRequest, insertMedicalRecord, updateMedicalRecord,
              createNotification, hp2, hm2]
          · exact Option.noConfusion hdr
          · refine ⟨{ emptyRecord inv.patient with appointments :=
              [⟨newApptId, actor.userId, inv.appointmentDate, inv.reason, none⟩] },
              ?_, rfl, ?_⟩
            · simp [respondAppointmentInvitation, hrole, hinv, hpend, hu2, findUser,
                findDoctorRequestPair, findMedicalRecord, setAppointmentInvitationStatus,
                insertDoctorRequest, insertMedicalRecord, updateMedicalRecord,
                createNotification, hp2, hm2, emptyRecord]
            · exact ⟨⟨newApptId, actor.userId, inv.appointmentDate, inv.reason, none⟩,
                by simp, rfl, rfl, rfl⟩
      | some m =>
          have hm2 := hm0
          simp only [findMedicalRecord] at hm2
          have hmpat : m.patient = inv.patient := by
            have hq := List.find?_some hm2
            simpa using hq
          have hmmem : m ∈ db.medicalRecords := List.mem_of_find?_eq_some hm2
          refine ⟨?_, ?_, fun _ => ?_, fun dr hdr => ?_, ?_⟩
          · simp [respondAppointmentInvitation, hrole, hinv, hpend, hu2, findUser,
              findDoctorRequestPair, findMedicalRecord, setAppointmentInvitationStatus,
              insertDoctorRequest, insertMedicalRecord, updateMedicalRecord,
              createNotification, hp2, hm2]
          · refine ⟨⟨newReqId, actor.userId, inv.patient, ReqStatus.accepted⟩, ?_, rfl, rfl, rfl⟩
            simp [respondAppointmentInvitation, hrole, hinv, hpend, hu2, findUser,
              findDoctorRequestPair, findMedicalRecord, setAppointmentInvitationStatus,
              insertDoctorRequest, insertMedicalRecord, updateMedicalRecord,
              createNotification, hp2, hm2]
          · simp [respondAppointmentInvitation, hrole, hinv, hpend, hu2, findUser,
              findDoctorRequestPair, findMedicalRecord, setAppointmentInvitationStatus,
              insertDoctorRequest, insertMedicalRecord, updateMedicalRecord,
              createNotification, hp2, hm2]
          · exact Option.noConfusion hdr
          · refine ⟨{ m with appointments := m.appointments ++
              [⟨newApptId, actor.userId, inv.appointmentDate, inv.reason, none⟩] },
              ?_, hmpat, ?_⟩
            · simp [respondAppointmentInvitation, hrole, hinv, hpend, hu2, findUser,
                findDoctorRequestPair, findMedicalRecord, setAppointmentInvitationStatus,
                insertDoctorRequest, insertMedicalRecord, updateMedicalRecord,
                createNotification, hp2, hm2, List.mem_map]
              refine ⟨m, hmmem, ?_⟩
              simp [hmpat]
            · exact ⟨⟨newApptId, actor.userId, inv.appointmentDate, inv.reason, none⟩,
                by simp, rfl, rfl, rfl⟩
  | some dr =>
      have hp2 := hpair0
      simp only [findDoctorRequestPair] at hp2
      have hdrf := List.find?_some hp2
      simp only [Bool.and_eq_true, beq_iff_eq] at hdrf
      obtain ⟨hdrd, hdrp⟩ := hdrf
      have hdrmem : dr ∈ db.doctorRequests := List.mem_of_find?_eq_some hp2
      by_cases hacc : dr.status = ReqStatus.accepted
      · have hsame : ({ dr with status := ReqStatus.accepted }) = dr := by rw [← hacc]
        have hmemacc : ({ dr with status := ReqStatus.accepted }) ∈
            (respondAppointmentInvitation db actor invId "accepted" newReqId
              newApptId).2.doctorRequests := by
          rw [hsame]
          cases hm0 : findMedicalRecord db inv.patient with
          | none =>
              have hm2 := hm0
              simp only [findMedicalRecord] at hm2
              simp [respondAppointmentInvitation, hrole, hinv, hpend, hu2, findUser,
                findDoctorRequestPair, findMedicalRecord, setAppointmentInvitationStatus,
                setDoctorRequestStatus, insertMedicalRecord, updateMedicalRecord,
                createNotification, hp2, hm2, hacc, hdrmem]
          | some m =>
              have hm2 := hm0
              simp only [findMedicalRecord] at hm2
              simp [respondAppointmentInvitation, hrole, hinv, hpend, hu2, findUser,
                findDoctorRequestPair, findMedicalRecord, setAppointmentInvitationStatus,
                setDoctorRequestStatus, insertMedicalRecord, updateMedicalRecord,
                createNotification, hp2, hm2, hacc, hdrmem]
        refine ⟨?_, ⟨{ dr with status := ReqStatus.accepted }, hmemacc, hdrd, hdrp, rfl⟩,
          fun hq => ?_, fun dr2 hdr2 => ?_, ?_⟩
        · cases hm0 : findMedicalRecord db inv.patient with
          | none =>
              have hm2 := hm0
              simp only [findMedicalRecord] at hm2
              simp [respondAppointmentInvitation, hrole, hinv, hpend, hu2, findUser,
                findDoctorRequestPair, findMedicalRecord, setAppointmentInvitationStatus,
                setDoctorRequestStatus, insertMedicalRecord, updateMedicalRecord,
                createNotification, hp2, hm2, hacc]
          | some m =>
              have hm2 := hm0
              simp only [findMedicalRecord] at hm2
              simp [respondAppointmentInvitation, hrole, hinv, hpend, hu2, findUser,
                findDoctorRequestPair, findMedicalRecord, setAppointmentInvitationStatus,
                setDoctorRequestStatus, insertMedicalRecord, updateMedicalRecord,
                createNotification, hp2, hm2, hacc]
        · exact Option.noConfusion hq
        · have hdr2eq : dr2 = dr := (Option.some_inj.mp hdr2).symm
          rw [hdr2eq]
          exact hmemacc
        · cases hm0 : findMedicalRecord db inv.patient with
          | none =>
              have hm2 := hm0
              simp only [findMedicalRecord] at hm2
              refine ⟨{ emptyRecord inv.patient with appointments :=
                [⟨newApptId, actor.userId, inv.appointmentDate, inv.reason, none⟩] },
                ?_, rfl, ?_⟩
              · simp [respondAppointmentInvitation, hrole, hinv, hpend, hu2, findUser,
                  findDoctorRequestPair, findMedicalRecord, setAppointmentInvitationStatus,
                  setDoctorRequestStatus, insertMedicalRecord, updateMedicalRecord,
                  createNotification, hp2, hm2, hacc, emptyRecord]
              · exact ⟨⟨newApptId, actor.userId, inv.appointmentDate, inv.reason, none⟩,
                  by simp, rfl, rfl, rfl⟩
          | some m =>
              have hm2 := hm0
              simp only [findMedicalRecord] at hm2
              have hmpat : m.patient = inv.patient := by
                have hq := List.find?_some hm2
                simpa using hq
              have hmmem : m ∈ db.medicalRecords := List.mem_of_find?_eq_some hm2
              refine ⟨{ m with appointments := m.appointments ++
                [⟨newApptId, actor.userId, inv.appointmentDate, inv.reason, none⟩] },
                ?_, hmpat, ?_⟩
              · simp [respondAppointmentInvitation, hrole, hinv, hpend, hu2, findUser,
                  findDoctorRequestPair, findMedicalRecord, setAppointmentInvitationStatus,
                  setDoctorRequestStatus, insertMedicalRecord, updateMedicalRecord,
                  createNotification, hp2, hm2, hacc, List.mem_map]
                refine ⟨m, hmmem, ?_⟩
                simp [hmpat]
              · exact ⟨⟨newApptId, actor.userId, inv.appointmentDate, inv.reason, none⟩,
                  by simp, rfl, rfl, rfl⟩
      · have hmemacc : ({ dr with status := ReqStatus.accepted }) ∈
            (respondAppointmentInvitation db actor invId "accepted" newReqId
              newApptId).2.doctorRequests := by
          cases hm0 : findMedicalRecord db inv.patient with
          | none =>
              have hm2 := hm0
              simp only [findMedicalRecord] at hm2
              simp [respondAppointmentInvitation, hrole, hinv, hpend, hu2, findUser,
                findDoctorRequestPair, findMedicalRecord, setAppointmentInvitationStatus,
                setDoctorRequestStatus, insertMedicalRecord, updateMedicalRecord,
                createNotification, hp2, hm2, hacc, List.mem_map]
              refine ⟨dr, hdrmem, ?_⟩
              simp
          | some m =>
              have hm2 := hm0
              simp only [findMedicalRecord] at hm2
              simp [respondAppointmentInvitation, hrole, hinv, hpend, hu2, findUser,
                findDoctorRequestPair, findMedicalRecord, setAppointmentInvitationStatus,
                setDoctorRequestStatus, insertMedicalRecord, updateMedicalRecord,
                createNotification, hp2, hm2, hacc, List.mem_map]
              refine ⟨dr, hdrmem, ?_⟩
              simp
        refine ⟨?_, ⟨{ dr with status := ReqStatus.accepted }, hmemacc, hdrd, hdrp, rfl⟩,
          fun hq => ?_, fun dr2 hdr2 => ?_, ?_⟩
        · cases hm0 : findMedicalRecord db inv.patient with
          | none =>
              have hm2 := hm0
              simp only [findMedicalRecord] at hm2
              simp [respondAppointmentInvitation, hrole, hinv, hpend, hu2, findUser,
                findDoctorRequestPair, findMedicalRecord, setAppointmentInvitationStatus,
                setDoctorRequestStatus, insertMedicalRecord, updateMedicalRecord,
                createNotification, hp2, hm2, hacc]
          | some m =>
              have hm2 := hm0
              simp only [findMedicalRecord] at hm2
              simp [respondAppointmentInvitation, hrole, hinv, hpend, hu2, findUser,
                findDoctorRequestPair, findMedicalRecord, setAppointmentInvitationStatus,
                setDoctorRequestStatus, insertMedicalRecord, updateMedicalRecord,
                createNotification, hp2, hm2, hacc]
        · exact Option.noConfusion hq
        · have hdr2eq : dr2 = dr := (Option.some_inj.mp hdr2).symm
          rw [hdr2eq]
          exact hmemacc
        · cases hm0 : findMedicalRecord db inv.patient with
          | none =>
              have hm2 := hm0
              simp only [findMedicalRecord] at hm2
              refine ⟨{ emptyRecord inv.patient with appointments :=
                [⟨newApptId, actor.userId, inv.appointmentDate, inv.reason, none⟩] },
                ?_, rfl, ?_⟩
              · simp [respondAppointmentInvitation, hrole, hinv, hpend, hu2, findUser,
                  findDoctorRequestPair, findMedicalRecord, setAppointmentInvitationStatus,
                  setDoctorRequestStatus, insertMedicalRecord, updateMedicalRecord,
                  createNotification, hp2, hm2, hacc, emptyRecord]
              · exact ⟨⟨newApptId, actor.userId, inv.appointmentDate, inv.reason, none⟩,
                  by simp, rfl, rfl, rfl⟩
          | some m =>
              have hm2 := hm0
              simp only [findMedicalRecord] at hm2
              have hmpat : m.patient = inv.patient := by
                have hq := List.find?_some hm2
                simpa using hq
              have hmmem : m ∈ db.medicalRecords := List.mem_of_find?_eq_some hm2
              refine ⟨{ m with appointments := m.appointments ++
                [⟨newApptId, actor.userId, inv.appointmentDate, inv.reason, none⟩] },
                ?_, hmpat, ?_⟩
              · simp [respondAppointmentInvitation, hrole, hinv, hpend, hu2, findUser,
                  findDoctorRequestPair, findMedicalRecord, setAppointmentInvitationStatus,
                  setDoctorRequestStatus, insertMedicalRecord, updateMedicalRecord,
                  createNotification, hp2, hm2, hacc, List.mem_map]
                refine ⟨m, hmmem, ?_⟩
                simp [hmpat]
              · exact ⟨⟨newApptId, actor.userId, inv.appointmentDate, inv.reason, none⟩,
                  by simp, rfl, rfl, rfl⟩

theorem accept_invitation_creates_access_witness :
    (respondAppointmentInvitation dbA ⟨1, Role.doctor⟩ 30 "accepted" 98 97).1
      = ⟨200, "Invitation accepted"⟩ ∧
    (∃ r ∈ (respondAppointmentInvitation dbA ⟨1, Role.doctor⟩ 30 "accepted"
        98 97).2.doctorRequests,
      r.doctor = 1 ∧ r.patient = 2 ∧ r.status = ReqStatus.accepted) ∧
    (∃ mr ∈ (respondAppointmentInvitation dbA ⟨1, Role.doctor⟩ 30 "accepted"
        98 97).2.medicalRecords,
      mr.patient = 2 ∧
        ∃ ap ∈ mr.appointments, ap.doctor = 1 ∧ ap.date = 1000 ∧ ap.reason = "checkup") := by
  have h := accept_invitation_creates_access dbA ⟨1, Role.doctor⟩ 30 98 97
    ⟨30, 2, 1, 1000, "checkup", ReqStatus.pending⟩ ⟨1, Role.doctor, "Alice", "Ash"⟩
    rfl (by decide) rfl (by decide)
  exact ⟨h.1, h.2.1, h.2.2.2.2⟩

/-! ### Preservation of medical records across every handler -/

theorem recordsPreserved_refl (db : DB) : recordsPreserved db db :=
  fun _ h => h

theorem recordsPreserved_trans (db1 db2 db3 : DB) (h1 : recordsPreserved db1 db2)
    (h2 : recordsPreserved db2 db3) : recordsPreserved db1 db3 :=
  fun p hp => h2 p (h1 p hp)

theorem recordsPreserved_of_eq (db db2 : DB) (h : db2.medicalRecords = db.medicalRecords) :
    recordsPreserved db db2 := by
  intro p hp
  rw [h]
  exact hp

theorem recordsPreserved_insert (db : DB) (mr : MedicalRecordRec) :
    recordsPreserved db (insertMedicalRecord db mr) := by
  rintro p ⟨x, hx, hxp⟩
  exact ⟨x, List.mem_append_left _ hx, hxp⟩

theorem recordsPreserved_update (db : DB) (mr : MedicalRecordRec) :
    recordsPreserved db (updateMedicalRecord db mr) := by
  rintro p ⟨x, hx, hxp⟩
  by_cases hc : x.patient = mr.patient
  · refine ⟨mr, ?_, by rw [← hc]; exact hxp⟩
    exact List.mem_map.mpr ⟨x, hx, by simp [hc]⟩
  · refine ⟨x, ?_, hxp⟩
    exact List.mem_map.mpr ⟨x, hx, by simp [hc]⟩

theorem recordsPreserved_step_eq (dba dbb dbc : DB) (h : recordsPreserved dba dbb)
    (he : dbc.medicalRecords = dbb.medicalRecords) : recordsPreserved dba dbc :=
  recordsPreserved_trans dba dbb dbc h (recordsPreserved_of_eq dbb dbc he)

theorem recordsPreserved_step_insert (dba dbb : DB) (mr : MedicalRecordRec)
    (h : recordsPreserved dba dbb) : recordsPreserved dba (insertMedicalRecord dbb mr) :=
  recordsPreserved_trans dba dbb _ h (recordsPreserved_insert dbb mr)

theorem recordsPreserved_step_update (dba dbb : DB) (mr : MedicalRecordRec)
    (h : recordsPreserved dba dbb) : recordsPreserved dba (updateMedicalRecord dbb mr) :=
  recordsPreserved_trans dba dbb _ h (recordsPreserved_update dbb mr)

theorem recordsPreserved_notify (dba dbb : DB) (d p : UserId) (k : String) (c : Nat)
    (m : String) (h : recordsPreserved dba dbb) :
    recordsPreserved dba (notifyAfterWrite dbb d p k c m).2 :=
  recordsPreserved_step_eq dba dbb _ h (medicalRecords_notifyAfterWrite dbb d p k c m)

theorem rp_fetchOrCreateRecord (db : DB) (pid : UserId) :
    recordsPreserved db (fetchOrCreateRecord db pid).2 := by
  unfold fetchOrCreateRecord
  cases hf : findMedicalRecord db pid <;> simp only [hf]
  · exact recordsPreserved_insert _ _
  · exact recordsPreserved_refl db

theorem rp_getMedicalRecord (db : DB) (actor : Actor) (pid : UserId) :
    recordsPreserved db (getMedicalRecord db actor pid).2 := by
  unfold getMedicalRecord
  cases hr : actor.role <;> dsimp only
  · split
    · exact recordsPreserved_refl db
    · exact rp_fetchOrCreateRecord db pid
  · split
    · exact recordsPreserved_refl db
    · exact rp_fetchOrCreateRecord db pid
  · split
    · exact recordsPreserved_refl db
    · exact rp_fetchOrCreateRecord db pid
  · exact recordsPreserved_refl db

theorem rp_pushAppointment (db : DB) (pid did : UserId) (date : Nat) (reason : String)
    (notes : Option String) (newId : Nat) :
    recordsPreserved db (pushAppointment db pid did date reason notes newId).2 := by
  unfold pushAppointment
  cases hf : findMedicalRecord db pid <;> simp only [hf]
  · exact recordsPreserved_notify _ _ _ _ _ _ _ (recordsPreserved_insert _ _)
  · exact recordsPreserved_notify _ _ _ _ _ _ _ (recordsPreserved_update _ _)

theorem rp_addAppointment (db : DB) (actor : Actor) (pid : UserId) (date : Nat)
    (reason : String) (notes : Option String) (doctorId : Option UserId) (newId : Nat) :
    recordsPreserved db (addAppointment db actor pid date reason notes doctorId newId).2 := by
  unfold addAppointment
  split
  · exact recordsPreserved_refl db
  · split
    · split
      · exact recordsPreserved_refl db
      · split
        · exact recordsPreserved_refl db
        · split
          · exact recordsPreserved_refl db
          · exact rp_pushAppointment _ _ _ _ _ _ _
    · split
      · exact recordsPreserved_refl db
      · exact rp_pushAppointment _ _ _ _ _ _ _

theorem rp_updateAppointment (db : DB) (actor : Actor) (pid : UserId) (aid : Nat)
    (date : Option Nat) (reason notes : Option String) :
    recordsPreserved db (updateAppointment db actor pid aid date reason notes).2 := by
  unfold updateAppointment
  split
  · exact recordsPreserved_refl db
  · split
    · exact recordsPreserved_refl db
    · split
      · exact recordsPreserved_refl db
      · split
        · exact recordsPreserved_refl db
        · split
          · exact recordsPreserved_refl db
          · exact recordsPreserved_notify _ _ _ _ _ _ _ (recordsPreserved_update _ _)

theorem rp_deleteAppointment (db : DB) (actor : Actor) (pid : UserId) (aid : Nat) :
    recordsPreserved db (deleteAppointment db actor pid aid).2 := by
  unfold deleteAppointment
  split
  · exact recordsPreserved_refl db
  · split
    · exact recordsPreserved_refl db
    · split
      · exact recordsPreserved_refl db
      · split
        · exact recordsPreserved_refl db
        · split
          · exact recordsPreserved_refl db
          · exact recordsPreserved_notify _ _ _ _ _ _ _ (recordsPreserved_update _ _)

theorem rp_addPrescription (db : DB) (actor : Actor) (pid : UserId)
    (medication dosage : String) (duration instructions : Option String) (newId : Nat) :
    recordsPreserved db
      (addPrescription db actor pid medication dosage duration instructions newId).2 := by
  unfold addPrescription
  split
  · exact recordsPreserved_refl db
  · split
    · exact recordsPreserved_refl db
    · dsimp only
      cases hf : findMedicalRecord db pid <;> simp only [hf]
      · exact recordsPreserved_notify _ _ _ _ _ _ _ (recordsPreserved_insert _ _)
      · exact recordsPreserved_notify _ _ _ _ _ _ _ (recordsPreserved_update _ _)

theorem rp_updatePrescription (db : DB) (actor : Actor) (pid : UserId) (prid : Nat)
    (medication dosage duration instructions : Option String) :
    recordsPreserved db
      (updatePrescription db actor pid prid medication dosage duration instructions).2 := by
  unfold updatePrescription
  split
  · exact recordsPreserved_refl db
  · split
    · exact recordsPreserved_refl db
    · split
      · exact recordsPreserved_refl db
      · split
        · exact recordsPreserved_refl db
        · exact recordsPreserved_notify _ _ _ _ _ _ _ (recordsPreserved_update _ _)

theorem rp_deletePrescription (db : DB) (actor : Actor) (pid : UserId) (prid : Nat) :
    recordsPreserved db (deletePrescription db actor pid prid).2 := by
  unfold deletePrescription
  split
  · exact recordsPreserved_refl db
  · split
    · exact recordsPreserved_refl db
    · split
      · exact recordsPreserved_refl db
      · split
        · exact recordsPreserved_refl db
        · exact recordsPreserved_notify _ _ _ _ _ _ _ (recordsPreserved_update _ _)

theorem rp_addDisease (db : DB) (actor : Actor) (pid : UserId) (name : String)
    (diagnosedDate : Nat) (status notes : Option String) (newId : Nat) :
    recordsPreserved db
      (addDisease db actor pid name diagnosedDate status notes newId).2 := by
  unfold addDisease
  split
  · exact recordsPreserved_refl db
  · split
    · exact recordsPreserved_refl db
    · dsimp only
      cases hf : findMedicalRecord db pid <;> simp only [hf]
      · exact recordsPreserved_notify _ _ _ _ _ _ _ (recordsPreserved_insert _ _)
      · exact recordsPreserved_notify _ _ _ _ _ _ _ (recordsPreserved_update _ _)

theorem rp_updateDisease (db : DB) (actor : Actor) (pid : UserId) (did : Nat)
    (name : Option String) (diagnosedDate : Option Nat) (status notes : Option String) :
    recordsPreserved db
      (updateDisease db actor pid did name diagnosedDate status notes).2 := by
  unfold updateDisease
  split
  · exact recordsPreserved_refl db
  · split
    · exact recordsPreserved_refl db
    · split
      · exact recordsPreserved_refl db
      · split
        · exact recordsPreserved_refl db
        · exact recordsPreserved_notify _ _ _ _ _ _ _ (recordsPreserved_update _ _)

theorem rp_deleteDisease (db : DB) (actor : Actor) (pid : UserId) (did : Nat) :
    recordsPreserved db (deleteDisease db actor pid did).2 := by
  unfold deleteDisease
  split
  · exact recordsPreserved_refl db
  · split
    · exact recordsPreserved_refl db
    · split
      · exact recordsPreserved_refl db
      · split
        · exact recordsPreserved_refl db
        · exact recordsPreserved_notify _ _ _ _ _ _ _ (recordsPreserved_update _ _)

theorem rp_addComment (db : DB) (actor : Actor) (pid : UserId) (text : String)
    (newId : Nat) :
    recordsPreserved db (addComment db actor pid text newId).2 := by
  unfold addComment
  split
  · exact recordsPreserved_refl db
  · split
    · exact recordsPreserved_refl db
    · dsimp only
      cases hf : findMedicalRecord db pid <;> simp only [hf]
      · exact recordsPreserved_notify _ _ _ _ _ _ _ (recordsPreserved_insert _ _)
      · exact recordsPreserved_notify _ _ _ _ _ _ _ (recordsPreserved_update _ _)

theorem rp_updateComment (db : DB) (actor : Actor) (pid : UserId) (cid : Nat)
    (text : Option String) :
    recordsPreserved db (updateComment db actor pid cid text).2 := by
  unfold updateComment
  split
  · exact recordsPreserved_refl db
  · split
    · exact recordsPreserved_refl db
    · split
      · exact recordsPreserved_refl db
      · split
        · exact recordsPreserved_refl db
        · exact recordsPreserved_notify _ _ _ _ _ _ _ (recordsPreserved_update _ _)

theorem rp_deleteComment (db : DB) (actor : Actor) (pid : UserId) (cid : Nat) :
    recordsPreserved db (deleteComment db actor pid cid).2 := by
  unfold deleteComment
  split
  · exact recordsPreserved_refl db
  · split
    · exact recordsPreserved_refl db
    · split
      · exact recordsPreserved_refl db
      · split
        · exact recordsPreserved_refl db
        · exact recordsPreserved_notify _ _ _ _ _ _ _ (recordsPreserved_update _ _)

theorem rp_addDiagnostic (db : DB) (actor : Actor) (pid : UserId) (testName : String)
    (testDate : Nat) (results : String) (notes : Option String) (newId : Nat) :
    recordsPreserved db
      (addDiagnostic db actor pid testName testDate results notes newId).2 := by
  unfold addDiagnostic
  split
  · exact recordsPreserved_refl db
  · split
    · exact recordsPreserved_refl db
    · dsimp only
      cases hf : findMedicalRecord db pid <;> simp only [hf]
      · exact recordsPreserved_notify _ _ _ _ _ _ _ (recordsPreserved_insert _ _)
      · exact recordsPreserved_notify _ _ _ _ _ _ _ (recordsPreserved_update _ _)

theorem rp_updateDiagnostic (db : DB) (actor : Actor) (pid : UserId) (gid : Nat)
    (testName : Option String) (testDate : Option Nat) (results notes : Option String) :
    recordsPreserved db
      (updateDiagnostic db actor pid gid testName testDate results notes).2 := by
  unfold updateDiagnostic
  split
  · exact recordsPreserved_refl db
  · split
    · exact recordsPreserved_refl db
    · split
      · exact recordsPreserved_refl db
      · split
        · exact recordsPreserved_refl db
        · exact recordsPreserved_notify _ _ _ _ _ _ _ (recordsPreserved_update _ _)

theorem rp_deleteDiagnostic (db : DB) (actor : Actor) (pid : UserId) (gid : Nat) :
    recordsPreserved db (deleteDiagnostic db actor pid gid).2 := by
  unfold deleteDiagnostic
  split
  · exact recordsPreserved_refl db
  · split
    · exact recordsPreserved_refl db
    · split
      · exact recordsPreserved_refl db
      · split
        · exact recordsPreserved_refl db
        · exact recordsPreserved_notify _ _ _ _ _ _ _ (recordsPreserved_update _ _)

theorem medicalRecords_sendDoctorRequest (db : DB) (actor : Actor)
    (patientId : Option UserId) (nid : Nat) :
    (sendDoctorRequest db actor patientId nid).2.medicalRecords = db.medicalRecords := by
  unfold sendDoctorRequest
  split
  · rfl
  · split
    · rfl
    · split
      · rfl
      · split
        · split
          · dsimp only
            split
            · rfl
            · rfl
          · rfl
        · dsimp only
          split
          · rfl
          · rfl

theorem medicalRecords_inviteReceptionAgent (db : DB) (actor : Actor)
    (receptionAgentId : Option UserId) (nid : Nat) :
    (inviteReceptionAgent db actor receptionAgentId nid).2.medicalRecords
      = db.medicalRecords := by
  unfold inviteReceptionAgent
  split
  · rfl
  · split
    · rfl
    · split
      · rfl
      · split
        · split
          · dsimp only
            split
            · rfl
            · rfl
          · rfl
        · dsimp only
          split
          · rfl
          · rfl

theorem rp_sendDoctorRequest (db : DB) (actor : Actor) (patientId : Option UserId)
    (nid : Nat) :
    recordsPreserved db (sendDoctorRequest db actor patientId nid).2 :=
  recordsPreserved_of_eq db _ (medicalRecords_sendDoctorRequest db actor patientId nid)

theorem rp_inviteReceptionAgent (db : DB) (actor : Actor)
    (receptionAgentId : Option UserId) (nid : Nat) :
    recordsPreserved db (inviteReceptionAgent db actor receptionAgentId nid).2 :=
  recordsPreserved_of_eq db _
    (medicalRecords_inviteReceptionAgent db actor receptionAgentId nid)

theorem rp_respondDoctorRequest (db : DB) (actor : Actor) (reqId : Nat) (status : String) :
    recordsPreserved db (respondDoctorRequest db actor reqId status).2 := by
  unfold respondDoctorRequest
  split
  · exact recordsPreserved_refl db
  · split
    · exact recordsPreserved_refl db
    · split
      · exact recordsPreserved_refl db
      · dsimp only
        split
        · exact recordsPreserved_of_eq db _ rfl
        · split
          · dsimp only
            split
            · exact recordsPreserved_of_eq db _ rfl
            · exact recordsPreserved_step_insert db _ _ (recordsPreserved_of_eq db _ rfl)
          · exact recordsPreserved_of_eq db _ rfl

theorem rp_respondAppointmentInvitation (db : DB) (actor : Actor) (invId : Nat)
    (status : String) (newReqId newApptId : Nat) :
    recordsPreserved db
      (respondAppointmentInvitation db actor invId status newReqId newApptId).2 := by
  unfold respondAppointmentInvitation
  dsimp only
  repeat' split
  all_goals first
    | exact recordsPreserved_refl db
    | exact recordsPreserved_of_eq db _ rfl
    | exact recordsPreserved_step_eq db _ _
        (recordsPreserved_step_update db _ _ (recordsPreserved_of_eq db _ rfl)) rfl
    | exact recordsPreserved_step_eq db _ _
        (recordsPreserved_step_update db _ _
          (recordsPreserved_step_insert db _ _ (recordsPreserved_of_eq db _ rfl))) rfl

/-- The GET route either denies with 403 leaving the store untouched, or
passes the gate and runs fetch-or-create. -/
theorem getMedicalRecord_cases (db : DB) (actor : Actor) (pid : UserId) :
    (∃ m, getMedicalRecord db actor pid = (⟨403, m⟩, db)) ∨
      getMedicalRecord db actor pid = fetchOrCreateRecord db pid := by
  unfold getMedicalRecord
  cases hr : actor.role <;> dsimp only
  · split
    · exact Or.inl ⟨_, rfl⟩
    · exact Or.inr rfl
  · split
    · exact Or.inl ⟨_, rfl⟩
    · exact Or.inr rfl
  · split
    · exact Or.inl ⟨_, rfl⟩
    · exact Or.inr rfl
  · exact Or.inl ⟨_, rfl⟩

theorem get_record_creates_when_absent (db : DB) (actor : Actor) (pid : UserId)
    (h200 : (getMedicalRecord db actor pid).1.status = 200)
    (hnone : findMedicalRecord db pid = none) :
    (getMedicalRecord db actor pid).2.medicalRecords
      = db.medicalRecords ++ [emptyRecord pid] := by
  rcases getMedicalRecord_cases db actor pid with ⟨m, hE⟩ | hE
  · rw [hE] at h200
    simp at h200
  · rw [hE]
    unfold fetchOrCreateRecord
    simp [hnone, insertMedicalRecord]

theorem get_record_unchanged_when_present (db : DB) (actor : Actor) (pid : UserId)
    (mr : MedicalRecordRec)
    (h200 : (getMedicalRecord db actor pid).1.status = 200)
    (hsome : findMedicalRecord db pid = some mr) :
    (getMedicalRecord db actor pid).2 = db := by
  rcases getMedicalRecord_cases db actor pid with ⟨m, hE⟩ | hE
  · rw [hE] at h200
    simp at h200
  · rw [hE]
    unfold fetchOrCreateRecord
    simp [hsome]

theorem get_record_unchanged_when_denied (db : DB) (actor : Actor) (pid : UserId)
    (hne : (getMedicalRecord db actor pid).1.status ≠ 200) :
    (getMedicalRecord db actor pid).2 = db := by
  rcases getMedicalRecord_cases db actor pid with ⟨m, hE⟩ | hE
  · rw [hE]
  · exfalso
    apply hne
    rw [hE]
    unfold fetchOrCreateRecord
    cases hf : findMedicalRecord db pid <;> simp [hf]

/-- C10 counterexample: patient 5 has no MedicalRecord in `dbA`, yet the
read-only fetch of their record by their accepted doctor 1 succeeds and
creates one, changing the persisted state. -/
theorem record_creation_on_read_counterexample :
    findMedicalRecord dbA 5 = none ∧
    (getMedicalRecord dbA ⟨1, Role.doctor⟩ 5).1.status = 200 ∧
    (getMedicalRecord dbA ⟨1, Role.doctor⟩ 5).2 ≠ dbA ∧
    (∃ mr ∈ (getMedicalRecord dbA ⟨1, Role.doctor⟩ 5).2.medicalRecords, mr.patient = 5) := by
  decide

/-- C10 (amended): a patient's MedicalRecord comes into existence only on a
first write, on a doctor-patient request being accepted, or on a first
authorized fetch of the record (a successful GET creates an empty record
when none exists and changes nothing when one exists; a denied GET changes
nothing); no operation of the embedding ever deletes a patient's record, and
the relationship-creation endpoints leave the medical-record collection
unchanged. -/
theorem record_creation_amended :
    (∀ (db : DB) (actor : Actor) (pid : UserId),
      (getMedicalRecord db actor pid).1.status = 200 →
      findMedicalRecord db pid = none →
      (getMedicalRecord db actor pid).2.medicalRecords
        = db.medicalRecords ++ [emptyRecord pid]) ∧
    (∀ (db : DB) (actor : Actor) (pid : UserId) (mr : MedicalRecordRec),
      (getMedicalRecord db actor pid).1.status = 200 →
      findMedicalRecord db pid = some mr →
      (getMedicalRecord db actor pid).2 = db) ∧
    (∀ (db : DB) (actor : Actor) (pid : UserId),
      (getMedicalRecord db actor pid).1.status ≠ 200 →
      (getMedicalRecord db actor pid).2 = db) ∧
    (∀ (db : DB) (actor : Actor) (pid : UserId),
      recordsPreserved db (getMedicalRecord db actor pid).2) ∧
    (∀ (db : DB) (actor : Actor) (pid : UserId) (date : Nat) (reason : String)
      (notes : Option String) (doctorId : Option UserId) (newId : Nat),
      recordsPreserved db (addAppointment db actor pid date reason notes doctorId newId).2) ∧
    (∀ (db : DB) (actor : Actor) (pid : UserId) (aid : Nat) (date : Option Nat)
      (reason notes : Option String),
      recordsPreserved db (updateAppointment db actor pid aid date reason notes).2) ∧
    (∀ (db : DB) (actor : Actor) (pid : UserId) (aid : Nat),
      recordsPreserved db (deleteAppointment db actor pid aid).2) ∧
    (∀ (db : DB) (actor : Actor) (pid : UserId) (medication dosage : String)
      (duration instructions : Option String) (newId : Nat),
      recordsPreserved db
        (addPrescription db actor pid medication dosage duration instructions newId).2) ∧
    (∀ (db : DB) (actor : Actor) (pid : UserId) (prid : Nat)
      (medication dosage duration instructions : Option String),
      recordsPreserved db
        (updatePrescription db actor pid prid medication dosage duration instructions).2) ∧
    (∀ (db : DB) (actor : Actor) (pid : UserId) (prid : Nat),
      recordsPreserved db (deletePrescription db actor pid prid).2) ∧
    (∀ (db : DB) (actor : Actor) (pid : UserId) (name : String) (diagnosedDate : Nat)
      (status notes : Option String) (newId : Nat),
      recordsPreserved db (addDisease db actor pid name diagnosedDate status notes newId).2) ∧
    (∀ (db : DB) (actor : Actor) (pid : UserId) (did : Nat) (name : Option String)
      (diagnosedDate : Option Nat) (status notes : Option String),
      recordsPreserved db
        (updateDisease db actor pid did name diagnosedDate status notes).2) ∧
    (∀ (db : DB) (actor : Actor) (pid : UserId) (did : Nat),
      recordsPreserved db (deleteDisease db actor pid did).2) ∧
    (∀ (db : DB) (actor : Actor) (pid : UserId) (text : String) (newId : Nat),
      recordsPreserved db (addComment db actor pid text newId).2) ∧
    (∀ (db : DB) (actor : Actor) (pid : UserId) (cid : Nat) (text : Option String),
      recordsPreserved db (updateComment db actor pid cid text).2) ∧
    (∀ (db : DB) (actor : Actor) (pid : UserId) (cid : Nat),
      recordsPreserved db (deleteComment db actor pid cid).2) ∧
    (∀ (db : DB) (actor : Actor) (pid : UserId) (testName : String) (testDate : Nat)
      (results : String) (notes : Option String) (newId : Nat),
      recordsPreserved db
        (addDiagnostic db actor pid testName testDate results notes newId).2) ∧
    (∀ (db : DB) (actor : Actor) (pid : UserId) (gid : Nat) (testName : Option String)
      (testDate : Option Nat) (results notes : Option String),
      recordsPreserved db
        (updateDiagnostic db actor pid gid testName testDate results notes).2) ∧
    (∀ (db : DB) (actor : Actor) (pid : UserId) (gid : Nat),
      recordsPreserved db (deleteDiagnostic db actor pid gid).2) ∧
    (∀ (db : DB) (actor : Actor) (patientId : Option UserId) (nid : Nat),
      (sendDoctorRequest db actor patientId nid).2.medicalRecords = db.medicalRecords) ∧
    (∀ (db : DB) (actor : Actor) (receptionAgentId : Option UserId) (nid : Nat),
      (inviteReceptionAgent db actor receptionAgentId nid).2.medicalRecords
        = db.medicalRecords) ∧
    (∀ (db : DB) (actor : Actor) (reqId : Nat) (status : String),
      recordsPreserved db (respondDoctorRequest db actor reqId status).2) ∧
    (∀ (db : DB) (actor : Actor) (invId : Nat) (status : String) (newReqId newApptId : Nat),
      recordsPreserved db
        (respondAppointmentInvitation db actor invId status newReqId newApptId).2) :=
  ⟨get_record_creates_when_absent,
    get_record_unchanged_when_present,
    get_record_unchanged_when_denied,
    rp_getMedicalRecord,
    rp_addAppointment,
    rp_updateAppointment,
    rp_deleteAppointment,
    rp_addPrescription,
    rp_updatePrescription,
    rp_deletePrescription,
    rp_addDisease,
    rp_updateDisease,
    rp_deleteDisease,
    rp_addComment,
    rp_updateComment,
    rp_deleteComment,
    rp_addDiagnostic,
    rp_updateDiagnostic,
    rp_deleteDiagnostic,
    medicalRecords_sendDoctorRequest,
    medicalRecords_inviteReceptionAgent,
    rp_respondDoctorRequest,
    rp_respondAppointmentInvitation⟩

theorem record_creation_amended_witness :
    (getMedicalRecord dbA ⟨1, Role.doctor⟩ 5).2.medicalRecords
      = dbA.medicalRecords ++ [emptyRecord 5] ∧
    (∃ mr ∈ (deletePrescription dbA ⟨1, Role.doctor⟩ 2 40).2.medicalRecords,
      mr.patient = 2) := by
  obtain ⟨habsent, -, -, -, -, -, -, -, -, hdel, -⟩ := record_creation_amended
  refine ⟨habsent dbA ⟨1, Role.doctor⟩ 5 (by decide) (by decide), ?_⟩
  exact hdel dbA ⟨1, Role.doctor⟩ 2 40 2
    ⟨⟨2, [], [⟨40, 1, "Amoxicillin", "500mg", none, none⟩,
      ⟨41, 4, "Ibuprofen", "200mg", none, none⟩], [], [], []⟩, by decide, rfl⟩

/-- C1 counterexample: in `dbA`, doctor 4 has no accepted DoctorRequest for
patient 2 (only a pending one), yet doctor 4's update of their own
prescription 41 succeeds with 200 and changes the store — the contract that a
Doctor "succeeds only if an accepted DoctorRequest exists at the time of the
write ... for update and delete operations as well" is false on the code. -/
theorem mutation_gate_counterexample :
    findDoctorRequest dbA 4 2 ReqStatus.accepted = none ∧
    (updatePrescription dbA ⟨4, Role.doctor⟩ 2 41 (some "Aspirin") none none none).1.status
      = 200 ∧
    (updatePrescription dbA ⟨4, Role.doctor⟩ 2 41 (some "Aspirin") none none none).2 ≠ dbA := by
  decide

end Medflow
